import Mathlib

/-!
# D3D12HelloTriangle: acceleration structures, shader binding table, frame fence

A shallow embedding of `D3D12HelloTriangle.cpp`.  Member functions become functions on an
explicit application state `App`; the members keep their C++ names.  GPU resources are named
handles, matrices are an abstract type `M`, and machine integers are natural numbers with the
conversions `toUINT` / `toUINT64` written where the source converts.
-/

set_option autoImplicit false

namespace D3D12HelloTriangle

/-! ## Machine integers -/

/-- The conversion `static_cast<UINT>(x)` and the type `uint32_t`: reduction modulo `2^32`. -/
def toUINT (n : Nat) : Nat := n % 2 ^ 32

/-- Arithmetic in `size_t` / `UINT64`: reduction modulo `2^64`. -/
def toUINT64 (n : Nat) : Nat := n % 2 ^ 64

/-! ## Resources -/

/-- GPU resources: the members of the class that hold one, and the buffers returned by
`nv_helpers_dx12::CreateBuffer` (numbered in allocation order). -/
inductive Resource where
  | m_vertexBuffer
  | m_indexBuffer
  | m_planeBuffer
  | m_mengerVB
  | m_mengerIB
  | m_renderTargets (n : Nat)
  | m_outputResource
  | buffer (n : Nat)
  deriving DecidableEq, Repr

/-- The values of `D3D12_RESOURCE_FLAGS` the program uses. -/
inductive ResourceFlag where
  | NONE
  | ALLOW_UNORDERED_ACCESS
  deriving DecidableEq, Repr

/-- The values of `D3D12_RESOURCE_STATES` the program uses. -/
inductive ResourceState where
  | PRESENT
  | RENDER_TARGET
  | COPY_SOURCE
  | COPY_DEST
  | UNORDERED_ACCESS
  | GENERIC_READ
  | RAYTRACING_ACCELERATION_STRUCTURE
  deriving DecidableEq, Repr

/-- The two heap property sets `kDefaultHeapProps` and `kUploadHeapProps`. -/
inductive HeapProps where
  | kDefaultHeapProps
  | kUploadHeapProps
  deriving DecidableEq, Repr

/-- The arguments of one `nv_helpers_dx12::CreateBuffer` call. -/
structure BufferDesc where
  size : Nat
  flags : ResourceFlag
  initState : ResourceState
  heapProps : HeapProps
  deriving DecidableEq, Repr

/-- Modelled from the spec: `nv_helpers_dx12::CreateBuffer` is declared in `DXRHelper.h`, which is
not among the sources.  It allocates one buffer of the requested size ("allocate ... buffers sized
to the query"); the model logs the request and returns a fresh handle. -/
def CreateBuffer (allocations : List BufferDesc) (d : BufferDesc) : Resource × List BufferDesc :=
  (Resource.buffer allocations.length, allocations ++ [d])

/-! ## Acceleration-structure generators -/

/-- One geometry registered with `BottomLevelASGenerator::AddVertexBuffer`: the indexed overload
`(vb, 0, vertexCount, sizeof(Vertex), ib, 0, indexCount, nullptr, 0, true)` or the non-indexed one
`(vb, 0, vertexCount, sizeof(Vertex), 0, 0)`. -/
inductive Geometry where
  | indexed (vertexBuffer : Resource) (vertexCount : Nat) (indexBuffer : Resource) (indexCount : Nat)
  | nonIndexed (vertexBuffer : Resource) (vertexCount : Nat)
  deriving DecidableEq, Repr

/-- The instance descriptor kept by the top-level generator for one `AddInstance` call. -/
structure Instance (M : Type) where
  bottomLevelAS : Option Resource
  transform : M
  instanceID : Nat
  hitGroupIndex : Nat
  deriving DecidableEq, Repr

/-- The helper object `nv_helpers_dx12::TopLevelASGenerator`: the instances registered so far. -/
structure TopLevelASGenerator (M : Type) where
  m_instances : List (Instance M)
  deriving DecidableEq, Repr

/-- Modelled from the spec: `TopLevelASGenerator::AddInstance` is defined in `nv_helpers_dx12`,
which is not among the sources.  It registers one (bottom-level reference, transform, instance id,
hit-group offset) tuple after those already registered. -/
def TopLevelASGenerator.AddInstance {M : Type} (g : TopLevelASGenerator M)
    (bottomLevelAS : Option Resource)
    (transform : M) (instanceID hitGroupIndex : Nat) : TopLevelASGenerator M :=
  { m_instances := g.m_instances ++ [⟨bottomLevelAS, transform, instanceID, hitGroupIndex⟩] }

/-- The struct `AccelerationStructureBuffers`; a null `ComPtr` is `none`. -/
structure AccelerationStructureBuffers where
  pScratch : Option Resource
  pResult : Option Resource
  pInstanceDesc : Option Resource
  deriving DecidableEq, Repr

/-- The sizes the device reports for acceleration-structure builds (`ComputeASBufferSizes`):
for a bottom-level build `(scratch, result)` from the geometries, for a top-level build
`(scratch, result, instance descriptors)` from the number of instances. -/
structure DeviceSizes where
  bottomLevel : List Geometry → Nat × Nat
  topLevel : Nat → Nat × Nat × Nat

/-! ## Shader binding table -/

/-- A root argument of a shader record: a buffer GPU address or the descriptor-heap handle. -/
inductive SBTArg where
  | gpuVirtualAddress (r : Resource)
  | heapPointer
  deriving DecidableEq, Repr

/-- A shader record declaration: exported symbol name and ordered root arguments. -/
structure SBTEntry where
  m_entryPoint : String
  m_inputData : List SBTArg
  deriving DecidableEq, Repr

/-- The helper object `nv_helpers_dx12::ShaderBindingTableGenerator`: the three sections. -/
structure ShaderBindingTableGenerator where
  m_rayGen : List SBTEntry
  m_miss : List SBTEntry
  m_hitGroup : List SBTEntry
  deriving DecidableEq, Repr

namespace ShaderBindingTableGenerator

/-- Size of a program identifier, `D3D12_SHADER_IDENTIFIER_SIZE_IN_BYTES`. -/
def progIdSize : Nat := 32

/-- Size of one root argument (a pointer). -/
def argSize : Nat := 8

/-- Record alignment, `D3D12_RAYTRACING_SHADER_RECORD_BYTE_ALIGNMENT`. -/
def recordAlignment : Nat := 32

/-- Table alignment, `D3D12_RAYTRACING_SHADER_TABLE_BYTE_ALIGNMENT`. -/
def tableAlignment : Nat := 64

/-- Round `v` up to a multiple of `a`. -/
def roundUp (v a : Nat) : Nat := (v + a - 1) / a * a

/-- Modelled from the spec: the helper's `Reset` (not among the sources) empties the table. -/
def Reset (_t : ShaderBindingTableGenerator) : ShaderBindingTableGenerator := ⟨[], [], []⟩

/-- Modelled from the spec: `AddRayGenerationProgram` (not among the sources) declares a
ray-generation record, "in the order they will be indexed". -/
def AddRayGenerationProgram (t : ShaderBindingTableGenerator) (entryPoint : String)
    (inputData : List SBTArg) : ShaderBindingTableGenerator :=
  { t with m_rayGen := t.m_rayGen ++ [⟨entryPoint, inputData⟩] }

/-- Modelled from the spec: `AddMissProgram` (not among the sources) declares a miss record,
"in the order they will be indexed". -/
def AddMissProgram (t : ShaderBindingTableGenerator) (entryPoint : String)
    (inputData : List SBTArg) : ShaderBindingTableGenerator :=
  { t with m_miss := t.m_miss ++ [⟨entryPoint, inputData⟩] }

/-- Modelled from the spec: `AddHitGroup` (not among the sources) declares a hit-group record,
"in the order they will be indexed". -/
def AddHitGroup (t : ShaderBindingTableGenerator) (entryPoint : String)
    (inputData : List SBTArg) : ShaderBindingTableGenerator :=
  { t with m_hitGroup := t.m_hitGroup ++ [⟨entryPoint, inputData⟩] }

/-- Modelled from the spec: "Record byte size = fixed program-identifier size + argument count ×
pointer size, rounded up to a per-record alignment constant."  The helper that computes it is not
among the sources. -/
def recordSize (e : SBTEntry) : Nat :=
  roundUp (progIdSize + e.m_inputData.length * argSize) recordAlignment

/-- Modelled from the spec: "each section's record stride [is] the maximum record size within that
section, rounded up to the record-alignment constant."  The helper `GetEntrySize` is not among the
sources. -/
def GetEntrySize (entries : List SBTEntry) : Nat :=
  roundUp ((entries.map recordSize).foldl max 0) recordAlignment

/-- Modelled from the spec: stride of the ray-generation section (helper not among the sources). -/
def GetRayGenEntrySize (t : ShaderBindingTableGenerator) : Nat := GetEntrySize t.m_rayGen

/-- Modelled from the spec: stride of the miss section (helper not among the sources). -/
def GetMissEntrySize (t : ShaderBindingTableGenerator) : Nat := GetEntrySize t.m_miss

/-- Modelled from the spec: stride of the hit-group section (helper not among the sources). -/
def GetHitGroupEntrySize (t : ShaderBindingTableGenerator) : Nat := GetEntrySize t.m_hitGroup

/-- Modelled from the spec: size of the ray-generation section, stride times record count
(helper not among the sources). -/
def GetRayGenSectionSize (t : ShaderBindingTableGenerator) : Nat :=
  t.GetRayGenEntrySize * t.m_rayGen.length

/-- Modelled from the spec: size of the miss section, stride times record count (helper not among
the sources). -/
def GetMissSectionSize (t : ShaderBindingTableGenerator) : Nat :=
  t.GetMissEntrySize * t.m_miss.length

/-- Modelled from the spec: size of the hit-group section, stride times record count (helper not
among the sources). -/
def GetHitGroupSectionSize (t : ShaderBindingTableGenerator) : Nat :=
  t.GetHitGroupEntrySize * t.m_hitGroup.length

/-- Modelled from the spec: "Total table size = sum of section sizes."  The helper
`ComputeSBTSize` is not among the sources. -/
def ComputeSBTSize (t : ShaderBindingTableGenerator) : Nat :=
  t.GetRayGenSectionSize + t.GetMissSectionSize + t.GetHitGroupSectionSize

end ShaderBindingTableGenerator

/-! ## Command list and GPU queue -/

/-- The descriptor heaps bound by `SetDescriptorHeaps`. -/
inductive DescriptorHeap where
  | m_constHeap
  | m_srvUavHeap
  deriving DecidableEq, Repr

/-- The vertex and index buffer views bound by the rasterized path. -/
inductive BufferView where
  | m_vertexBufferView
  | m_indexBufferView
  | m_planeBufferView
  | m_mengerVBView
  | m_mengerIBView
  deriving DecidableEq, Repr

/-- The fields of `D3D12_DISPATCH_RAYS_DESC` that `PopulateCommandList` fills in. -/
structure DispatchRaysDesc where
  RayGenerationShaderRecord_StartAddress : Nat
  RayGenerationShaderRecord_SizeInBytes : Nat
  MissShaderTable_StartAddress : Nat
  MissShaderTable_SizeInBytes : Nat
  MissShaderTable_StrideInBytes : Nat
  HitGroupTable_StartAddress : Nat
  HitGroupTable_SizeInBytes : Nat
  HitGroupTable_StrideInBytes : Nat
  Width : Nat
  Height : Nat
  Depth : Nat
  deriving DecidableEq, Repr

/-- The commands the program records into `m_commandList`. -/
inductive Command (M : Type) where
  | SetGraphicsRootSignature
  | RSSetViewports
  | RSSetScissorRects
  | ResourceBarrier (resource : Resource) (before after : ResourceState)
  | OMSetRenderTargets (frameIndex : Nat)
  | SetDescriptorHeaps (heap : DescriptorHeap)
  | SetGraphicsRootDescriptorTable (heap : DescriptorHeap)
  | IASetPrimitiveTopology
  | ClearRenderTargetView (frameIndex : Nat)
  | IASetVertexBuffers (view : BufferView)
  | IASetIndexBuffer (view : BufferView)
  | DrawIndexedInstanced (indexCount : Nat)
  | DrawInstanced (vertexCount : Nat)
  | BuildBottomLevelAS (geometries : List Geometry) (scratch result : Option Resource)
  | BuildTopLevelAS (instances : List (Instance M)) (scratch result instanceDesc : Option Resource)
  | SetPipelineState1
  | DispatchRays (desc : DispatchRaysDesc)
  | CopyResource (dst src : Resource)
  deriving DecidableEq, Repr

/-- The graphics command list: whether it is in the recording state, and what was recorded
since its last reset. -/
structure CommandList (M : Type) where
  recording : Bool
  commands : List (Command M)
  deriving DecidableEq, Repr

/-- The call `ID3D12GraphicsCommandList::Close`: fails (`none`) unless the list is recording. -/
def CommandList.Close {M : Type} (c : CommandList M) : Option (CommandList M) :=
  if c.recording then some { c with recording := false } else none

/-- The call `ID3D12GraphicsCommandList::Reset`: fails (`none`) if the list is still recording;
otherwise the list is empty and recording again. -/
def CommandList.Reset {M : Type} (c : CommandList M) : Option (CommandList M) :=
  if c.recording then none else some { recording := true, commands := [] }

/-- Work items of the command queue, executed by the GPU in submission order. -/
inductive QueueItem where
  | ExecuteCommandLists (submission : Nat)
  | Signal (value : Nat)
  | Present
  deriving DecidableEq, Repr

/-- The GPU side of the queue: the items not yet executed, the value of the fence, and the
submissions whose command list has finished executing. -/
structure GPU where
  pending : List QueueItem
  completedValue : Nat
  finished : List Nat
  deriving DecidableEq, Repr

/-- The GPU executes the item at the head of the queue. -/
def GPU.step (g : GPU) : GPU :=
  match g.pending with
  | [] => g
  | QueueItem.ExecuteCommandLists n :: rest => { g with pending := rest, finished := g.finished ++ [n] }
  | QueueItem.Signal v :: rest => { g with pending := rest, completedValue := v }
  | QueueItem.Present :: rest => { g with pending := rest }

/-- The GPU executes `n` items (asynchronous progress while the CPU does something else). -/
def GPU.advance : Nat → GPU → GPU
  | 0, g => g
  | n + 1, g => GPU.advance n g.step

/-- Loop of `GPU.wait`. -/
def GPU.waitLoop (v : Nat) : Nat → GPU → Option GPU
  | 0, g => if v ≤ g.completedValue then some g else none
  | fuel + 1, g => if v ≤ g.completedValue then some g else GPU.waitLoop v fuel g.step

/-- The calls `SetEventOnCompletion(v, event); WaitForSingleObject(event, INFINITE)`: the CPU
sleeps while the GPU works through the queue, until the fence has reached `v`.  When the queue
runs empty before that, the wait never ends (`none`). -/
def GPU.wait (v : Nat) (g : GPU) : Option GPU := GPU.waitLoop v g.pending.length g

/-! ## Application state -/

/-- What the program takes from its surroundings: the sizes the device reports, GPU addresses,
the swap chain length `FrameCount` (declared in the header), the values of `XMMatrixIdentity()`
and `XMMatrixTranslation(0, 0, 0)`, the outcome of the `CheckFeatureSupport` query with the
ray-tracing tier it reports, and the window size. -/
structure Env (M : Type) where
  sizes : DeviceSizes
  gpuVirtualAddress : Option Resource → Nat
  FrameCount : Nat
  XMMatrixIdentity : M
  XMMatrixTranslation000 : M
  checkFeatureSupportSucceeds : Bool
  RaytracingTier : Nat
  m_width : Nat
  m_height : Nat

/-- The members of `D3D12HelloTriangle` the model follows, and around them: the log of
`CreateBuffer` calls (`allocations`), the command queue and fence as the GPU sees them (`gpu`),
the values passed to `Signal` so far (`signalled`), the number of `ExecuteCommandLists` calls
(`submissions`), the swap chain's current back-buffer index (`backBufferIndex`), the
resources the CPU has written through a mapping, in order (`cpuWrites`), the number of calls
made on `m_commandList` while it was in the wrong state and whose result nothing checked
(`listMisuse`), and the contents of the command lists handed to `ExecuteCommandLists`, in order
(`submitted`). -/
structure App (M : Type) where
  m_raster : Bool
  m_frameIndex : Nat
  m_fenceValue : Nat
  m_mengerVertexCount : Nat
  m_mengerIndexCount : Nat
  m_instances : List (Option Resource × M)
  m_topLevelASGenerator : TopLevelASGenerator M
  m_topLevelASBuffers : AccelerationStructureBuffers
  m_perInstanceConstantBuffers : List Resource
  m_globalConstantBuffer : Option Resource
  m_cameraBuffer : Option Resource
  m_sbtHelper : ShaderBindingTableGenerator
  m_sbtStorage : Option Resource
  m_commandList : CommandList M
  allocations : List BufferDesc
  gpu : GPU
  signalled : List Nat
  submissions : Nat
  backBufferIndex : Nat
  cpuWrites : List Resource
  listMisuse : Nat
  submitted : List (List (Command M))
  deriving DecidableEq, Repr

/-- The calls `Map`, `memcpy`, `Unmap` on a resource: the CPU writes its contents. -/
def App.write {M : Type} (app : App M) (r : Resource) : App M :=
  { app with cpuWrites := app.cpuWrites ++ [r] }

/-- A command is recorded into `m_commandList`.  The recording calls return nothing; one made
on a list that is not recording is counted in `listMisuse`. -/
def App.record {M : Type} (app : App M) (c : Command M) : App M :=
  { app with m_commandList := { app.m_commandList with commands := app.m_commandList.commands ++ [c] },
             listMisuse := if app.m_commandList.recording then app.listMisuse
                           else app.listMisuse + 1 }

/-- The call `nv_helpers_dx12::CreateBuffer(m_device.Get(), ...)` in the application state. -/
def App.CreateBuffer {M : Type} (app : App M) (d : BufferDesc) : Resource × App M :=
  let r := D3D12HelloTriangle.CreateBuffer app.allocations d
  (r.1, { app with allocations := r.2 })

/-- The call `m_commandQueue->Signal(m_fence.Get(), v)`. -/
def App.Signal {M : Type} (app : App M) (v : Nat) : App M :=
  { app with gpu := { app.gpu with pending := app.gpu.pending ++ [QueueItem.Signal v] },
             signalled := app.signalled ++ [v] }

/-- The call `m_commandQueue->ExecuteCommandLists(1, ppCommandLists)`; submissions are numbered
from 1.  The call returns nothing; one made on a list that is still recording is counted in
`listMisuse`. -/
def App.ExecuteCommandLists {M : Type} (app : App M) : App M :=
  { app with gpu := { app.gpu with pending := app.gpu.pending ++
                        [QueueItem.ExecuteCommandLists (app.submissions + 1)] },
             submissions := app.submissions + 1,
             listMisuse := if app.m_commandList.recording then app.listMisuse + 1
                           else app.listMisuse,
             submitted := app.submitted ++ [app.m_commandList.commands] }

/-- The call `m_swapChain->Present(1, 0)`: the present is queued and the swap chain moves on to
its next back buffer. -/
def App.Present {M : Type} (env : Env M) (app : App M) : App M :=
  { app with gpu := { app.gpu with pending := app.gpu.pending ++ [QueueItem.Present] },
             backBufferIndex := (app.backBufferIndex + 1) % env.FrameCount }

/-! ## Frame synchronisation -/

/-- The member function `WaitForPreviousFrame`.  `adv` is the number of queue items the GPU
happens to execute between the `Signal` call and the `GetCompletedValue` call. -/
def WaitForPreviousFrame {M : Type} (adv : Nat) (app : App M) : Option (App M) := do
  let fence := app.m_fenceValue
  let app := app.Signal fence
  let app := { app with m_fenceValue := toUINT64 (app.m_fenceValue + 1) }
  let app := { app with gpu := app.gpu.advance adv }
  let app ←
    if app.gpu.completedValue < fence then
      (app.gpu.wait fence).map fun g => { app with gpu := g }
    else
      some app
  some { app with m_frameIndex := app.backBufferIndex }

/-- The member function `LoadAssets` from `CreateCommandList` on (which leaves the command list
recording): the uploads of the tetrahedron vertices, of the Menger sponge vertices and indices
(`CreateMengerSpongeVB`), of the tetrahedron indices and of the plane vertices (`CreatePlaneVB`),
then `CreateFence(0, ...)`, `m_fenceValue = 1`, `WaitForPreviousFrame()`.  The root signature and
the pipeline state touch no field of `App`. -/
def LoadAssets {M : Type} (adv : Nat) (app : App M) : Option (App M) :=
  let app := { app with m_commandList := { recording := true, commands := [] } }
  let app := app.write Resource.m_vertexBuffer
  let app := app.write Resource.m_mengerVB
  let app := app.write Resource.m_mengerIB
  let app := app.write Resource.m_indexBuffer
  let app := app.write Resource.m_planeBuffer
  let app := { app with gpu := { app.gpu with completedValue := 0 } }
  let app := { app with m_fenceValue := 1 }
  WaitForPreviousFrame adv app

/-- The member function `CheckRaytracingSupport`; `D3D12_RAYTRACING_TIER_1_0` is 10. -/
def CheckRaytracingSupport {M : Type} (env : Env M) (app : App M) : Option (App M) :=
  if !env.checkFeatureSupportSucceeds then none
  else if env.RaytracingTier < 10 then none
  else some app

/-! ## Acceleration structures -/

/-- The loop of `CreateBottomLevelAS`, from index `i` on: one `AddVertexBuffer` call per vertex
buffer, indexed when `i < vIndexBuffers.size() && vIndexBuffers[i].second > 0`. -/
def CreateBottomLevelAS.loop (vIndexBuffers : List (Resource × Nat)) :
    Nat → List (Resource × Nat) → List Geometry → List Geometry
  | _, [], bottomLevelAS => bottomLevelAS
  | i, vb :: rest, bottomLevelAS =>
    let g :=
      match vIndexBuffers[i]? with
      | some ib => if ib.2 > 0 then Geometry.indexed vb.1 vb.2 ib.1 ib.2 else Geometry.nonIndexed vb.1 vb.2
      | none => Geometry.nonIndexed vb.1 vb.2
    CreateBottomLevelAS.loop vIndexBuffers (i + 1) rest (bottomLevelAS ++ [g])

/-- The member function `CreateBottomLevelAS`. -/
def CreateBottomLevelAS {M : Type} (env : Env M) (vVertexBuffers vIndexBuffers : List (Resource × Nat))
    (app : App M) : AccelerationStructureBuffers × App M :=
  let bottomLevelAS := CreateBottomLevelAS.loop vIndexBuffers 0 vVertexBuffers []
  let sizes := env.sizes.bottomLevel bottomLevelAS
  let (pScratch, app) := app.CreateBuffer
    ⟨sizes.1, ResourceFlag.ALLOW_UNORDERED_ACCESS, ResourceState.UNORDERED_ACCESS, HeapProps.kDefaultHeapProps⟩
  let (pResult, app) := app.CreateBuffer
    ⟨sizes.2, ResourceFlag.ALLOW_UNORDERED_ACCESS, ResourceState.RAYTRACING_ACCELERATION_STRUCTURE,
      HeapProps.kDefaultHeapProps⟩
  let app := app.record (Command.BuildBottomLevelAS bottomLevelAS (some pScratch) (some pResult))
  (⟨some pScratch, some pResult, none⟩, app)

/-- The loop of `CreateTopLevelAS`, from index `i` on: `AddInstance(instances[i].first.Get(),
instances[i].second, static_cast<UINT>(i), static_cast<UINT>(2*i))`, with `i` a `size_t`. -/
def CreateTopLevelAS.loop {M : Type} :
    Nat → List (Option Resource × M) → TopLevelASGenerator M → TopLevelASGenerator M
  | _, [], g => g
  | i, inst :: rest, g =>
    CreateTopLevelAS.loop (i + 1) rest
      (g.AddInstance inst.1 inst.2 (toUINT i) (toUINT (toUINT64 (2 * i))))

/-- The member function `CreateTopLevelAS`.  The helper's `Generate` (not among the sources) fills
the CPU-written instance-descriptor buffer and records the build. -/
def CreateTopLevelAS {M : Type} (env : Env M) (instances : List (Option Resource × M))
    (app : App M) : App M :=
  let app := { app with m_topLevelASGenerator := CreateTopLevelAS.loop 0 instances app.m_topLevelASGenerator }
  let sizes := env.sizes.topLevel app.m_topLevelASGenerator.m_instances.length
  let (pScratch, app) := app.CreateBuffer
    ⟨sizes.1, ResourceFlag.ALLOW_UNORDERED_ACCESS, ResourceState.UNORDERED_ACCESS, HeapProps.kDefaultHeapProps⟩
  let (pResult, app) := app.CreateBuffer
    ⟨sizes.2.1, ResourceFlag.ALLOW_UNORDERED_ACCESS, ResourceState.RAYTRACING_ACCELERATION_STRUCTURE,
      HeapProps.kDefaultHeapProps⟩
  let (pInstanceDesc, app) := app.CreateBuffer
    ⟨sizes.2.2, ResourceFlag.NONE, ResourceState.GENERIC_READ, HeapProps.kUploadHeapProps⟩
  let app := { app with m_topLevelASBuffers := ⟨some pScratch, some pResult, some pInstanceDesc⟩ }
  let app := app.write pInstanceDesc
  app.record (Command.BuildTopLevelAS app.m_topLevelASGenerator.m_instances
    (some pScratch) (some pResult) (some pInstanceDesc))

/-- The member function `CreateAccelerationStructure`.  The result of the first `Close` is not
checked, so a `Close` on a list that is not recording is counted in `listMisuse`; the `Reset`
at the end is checked. -/
def CreateAccelerationStructure {M : Type} (env : Env M) (app : App M) : Option (App M) := do
  let (mengerBottomLevelBuffers, app) :=
    CreateBottomLevelAS env [(Resource.m_mengerVB, app.m_mengerVertexCount)]
      [(Resource.m_mengerIB, app.m_mengerIndexCount)] app
  let (planeBottomLevelBuffers, app) := CreateBottomLevelAS env [(Resource.m_planeBuffer, 6)] [] app
  let app := { app with m_instances := [(mengerBottomLevelBuffers.pResult, env.XMMatrixIdentity),
                                        (planeBottomLevelBuffers.pResult, env.XMMatrixTranslation000)] }
  let app := CreateTopLevelAS env app.m_instances app
  let app := { app with m_commandList := (app.m_commandList.Close).getD app.m_commandList,
                        listMisuse := if app.m_commandList.recording then app.listMisuse
                                      else app.listMisuse + 1 }
  let app := app.ExecuteCommandLists
  let app := { app with m_fenceValue := toUINT64 (app.m_fenceValue + 1) }
  let app := app.Signal app.m_fenceValue
  let g ← app.gpu.wait app.m_fenceValue
  let app := { app with gpu := g }
  let c ← app.m_commandList.Reset
  some { app with m_commandList := c }

/-! ## Shader binding table of the scene -/

/-- The member function `CreateShaderBindingTable`.  Reading `m_perInstanceConstantBuffers[0]`
needs the vector to be non-empty.  `CreateBuffer` always returns a buffer here, so the
`logic_error` branch is not taken; `Generate` copies the declared records into that buffer. -/
def CreateShaderBindingTable {M : Type} (app : App M) : Option (App M) := do
  let t := app.m_sbtHelper.Reset
  let t := t.AddRayGenerationProgram "RayGen" [SBTArg.heapPointer]
  let t := t.AddMissProgram "Miss" []
  let t := t.AddMissProgram "ShadowMiss" []
  let cb0 ← app.m_perInstanceConstantBuffers[0]?
  let t := t.AddHitGroup "HitGroup"
    [SBTArg.gpuVirtualAddress Resource.m_mengerVB, SBTArg.gpuVirtualAddress Resource.m_mengerIB,
      SBTArg.gpuVirtualAddress cb0]
  let t := t.AddHitGroup "ShadowHitGroup" []
  let t := t.AddHitGroup "PlaneHitGroup" [SBTArg.gpuVirtualAddress cb0, SBTArg.heapPointer]
  let app := { app with m_sbtHelper := t }
  let sbtSize := toUINT app.m_sbtHelper.ComputeSBTSize
  let (sbtStorage, app) := app.CreateBuffer
    ⟨sbtSize, ResourceFlag.NONE, ResourceState.GENERIC_READ, HeapProps.kUploadHeapProps⟩
  let app := { app with m_sbtStorage := some sbtStorage }
  some (app.write sbtStorage)

/-- The member function `CreatePerInstanceConstantBuffers`: three buffers of
`sizeof(XMVECTOR) * 3 = 48` bytes. -/
def CreatePerInstanceConstantBuffers {M : Type} (app : App M) : App M :=
  let d : BufferDesc := ⟨48, ResourceFlag.NONE, ResourceState.GENERIC_READ, HeapProps.kUploadHeapProps⟩
  let (cb0, app) := app.CreateBuffer d
  let app := app.write cb0
  let (cb1, app) := app.CreateBuffer d
  let app := app.write cb1
  let (cb2, app) := app.CreateBuffer d
  let app := app.write cb2
  { app with m_perInstanceConstantBuffers := [cb0, cb1, cb2] }

/-- The member function `CreateGlobalConstantBuffer`: one buffer of `sizeof(bufferData) = 144`
bytes. -/
def CreateGlobalConstantBuffer {M : Type} (app : App M) : App M :=
  let (b, app) := app.CreateBuffer
    ⟨144, ResourceFlag.NONE, ResourceState.GENERIC_READ, HeapProps.kUploadHeapProps⟩
  let app := { app with m_globalConstantBuffer := some b }
  app.write b

/-- The member function `CreateCameraBuffer`: one buffer of `4 * sizeof(XMMATRIX) = 256` bytes. -/
def CreateCameraBuffer {M : Type} (app : App M) : App M :=
  let (b, app) := app.CreateBuffer
    ⟨256, ResourceFlag.NONE, ResourceState.GENERIC_READ, HeapProps.kUploadHeapProps⟩
  { app with m_cameraBuffer := some b }

/-! ## Recording and rendering a frame -/

/-- The dispatch description `PopulateCommandList` fills in on the ray-traced path. -/
def dispatchRaysDesc {M : Type} (env : Env M) (app : App M) : DispatchRaysDesc :=
  let start := env.gpuVirtualAddress app.m_sbtStorage
  let rayGenerationSectionSizeInBytes := toUINT app.m_sbtHelper.GetRayGenSectionSize
  let missSectionSizeInBytes := toUINT app.m_sbtHelper.GetMissSectionSize
  let hitGroupsSectionSize := toUINT app.m_sbtHelper.GetHitGroupSectionSize
  { RayGenerationShaderRecord_StartAddress := start
    RayGenerationShaderRecord_SizeInBytes := rayGenerationSectionSizeInBytes
    MissShaderTable_StartAddress := toUINT64 (start + rayGenerationSectionSizeInBytes)
    MissShaderTable_SizeInBytes := missSectionSizeInBytes
    MissShaderTable_StrideInBytes := app.m_sbtHelper.GetMissEntrySize
    HitGroupTable_StartAddress :=
      toUINT64 (toUINT64 (start + rayGenerationSectionSizeInBytes) + missSectionSizeInBytes)
    HitGroupTable_SizeInBytes := hitGroupsSectionSize
    HitGroupTable_StrideInBytes := app.m_sbtHelper.GetHitGroupEntrySize
    Width := env.m_width
    Height := env.m_height
    Depth := 1 }

/-- The member function `PopulateCommandList`.  `m_commandAllocator->Reset()` changes no field of
`App`; the two calls that can fail here are the `Reset` and the `Close` of the command list. -/
def PopulateCommandList {M : Type} (env : Env M) (app : App M) : Option (App M) := do
  let c ← app.m_commandList.Reset
  let app := { app with m_commandList := c }
  let app := app.record Command.SetGraphicsRootSignature
  let app := app.record Command.RSSetViewports
  let app := app.record Command.RSSetScissorRects
  let app := app.record (Command.ResourceBarrier (Resource.m_renderTargets app.m_frameIndex)
    ResourceState.PRESENT ResourceState.RENDER_TARGET)
  let app := app.record (Command.OMSetRenderTargets app.m_frameIndex)
  let app :=
    if app.m_raster then
      let app := app.record (Command.SetDescriptorHeaps DescriptorHeap.m_constHeap)
      let app := app.record (Command.SetGraphicsRootDescriptorTable DescriptorHeap.m_constHeap)
      let app := app.record Command.IASetPrimitiveTopology
      let app := app.record (Command.ClearRenderTargetView app.m_frameIndex)
      let app := app.record (Command.IASetIndexBuffer BufferView.m_indexBufferView)
      let app := app.record (Command.DrawIndexedInstanced 12)
      let app := app.record (Command.IASetVertexBuffers BufferView.m_planeBufferView)
      let app := app.record (Command.DrawInstanced 6)
      let app := app.record (Command.IASetVertexBuffers BufferView.m_mengerVBView)
      let app := app.record (Command.IASetIndexBuffer BufferView.m_mengerIBView)
      app.record (Command.DrawIndexedInstanced app.m_mengerIndexCount)
    else
      let app := CreateTopLevelAS env app.m_instances app
      let app := app.record (Command.SetDescriptorHeaps DescriptorHeap.m_srvUavHeap)
      let app := app.record (Command.ResourceBarrier Resource.m_outputResource
        ResourceState.COPY_SOURCE ResourceState.UNORDERED_ACCESS)
      let app := app.record Command.SetPipelineState1
      let app := app.record (Command.DispatchRays (dispatchRaysDesc env app))
      let app := app.record (Command.ResourceBarrier Resource.m_outputResource
        ResourceState.UNORDERED_ACCESS ResourceState.COPY_SOURCE)
      let app := app.record (Command.ResourceBarrier (Resource.m_renderTargets app.m_frameIndex)
        ResourceState.RENDER_TARGET ResourceState.COPY_DEST)
      let app := app.record (Command.CopyResource (Resource.m_renderTargets app.m_frameIndex)
        Resource.m_outputResource)
      app.record (Command.ResourceBarrier (Resource.m_renderTargets app.m_frameIndex)
        ResourceState.COPY_DEST ResourceState.RENDER_TARGET)
  let app := app.record (Command.ResourceBarrier (Resource.m_renderTargets app.m_frameIndex)
    ResourceState.RENDER_TARGET ResourceState.PRESENT)
  let c ← app.m_commandList.Close
  some { app with m_commandList := c }

/-- The member function `OnRender`; `adv` as in `WaitForPreviousFrame`. -/
def OnRender {M : Type} (env : Env M) (adv : Nat) (app : App M) : Option (App M) := do
  let app ← PopulateCommandList env app
  let app := app.ExecuteCommandLists
  let app := app.Present env
  WaitForPreviousFrame adv app

/-- The member function `UpdateCameraBuffer`: the four camera matrices are copied into the mapped
`m_cameraBuffer`; the call fails on a null buffer. -/
def UpdateCameraBuffer {M : Type} (app : App M) : Option (App M) :=
  match app.m_cameraBuffer with
  | some b => some (app.write b)
  | none => none

/-- The member function `OnUpdate`. -/
def OnUpdate {M : Type} (app : App M) : Option (App M) := UpdateCameraBuffer app

/-- The member function `OnDestroy`. -/
def OnDestroy {M : Type} (adv : Nat) (app : App M) : Option (App M) :=
  WaitForPreviousFrame adv app

/-- The member function `OnKeyUp`; `VK_SPACE` is `0x20`. -/
def OnKeyUp {M : Type} (key : Nat) (app : App M) : App M :=
  if key = 0x20 then { app with m_raster := !app.m_raster } else app

/-- The state built by the constructor and `LoadPipeline`, before `LoadAssets`: nothing is
allocated, queued or registered, and `m_frameIndex` is the swap chain's first back buffer.
The initial value of `m_raster` and the sizes of the Menger sponge come from outside the file. -/
def App.initial {M : Type} (raster : Bool) (mengerVertexCount mengerIndexCount : Nat) : App M :=
  { m_raster := raster
    m_frameIndex := 0
    m_fenceValue := 0
    m_mengerVertexCount := mengerVertexCount
    m_mengerIndexCount := mengerIndexCount
    m_instances := []
    m_topLevelASGenerator := ⟨[]⟩
    m_topLevelASBuffers := ⟨none, none, none⟩
    m_perInstanceConstantBuffers := []
    m_globalConstantBuffer := none
    m_cameraBuffer := none
    m_sbtHelper := ⟨[], [], []⟩
    m_sbtStorage := none
    m_commandList := { recording := false, commands := [] }
    allocations := []
    gpu := { pending := [], completedValue := 0, finished := [] }
    signalled := []
    submissions := 0
    backBufferIndex := 0
    cpuWrites := []
    listMisuse := 0
    submitted := [] }

/-- The member function `OnInit`, from `LoadAssets` on.  The calls that touch no field of `App`
(`CreateRaytracingPipeline`, `CreateRaytracingOutputBuffer`, `CreateShaderResourceHeap`) are left
out, the first two being given on their own further down; `adv` is the GPU progress during the
first `WaitForPreviousFrame`. -/
def OnInit {M : Type} (env : Env M) (adv : Nat) (app : App M) : Option (App M) := do
  let app ← LoadAssets adv app
  let app ← CheckRaytracingSupport env app
  let app ← CreateAccelerationStructure env app
  let c ← app.m_commandList.Close
  let app := { app with m_commandList := c }
  let app := CreatePerInstanceConstantBuffers app
  let app := CreateGlobalConstantBuffer app
  let app := CreateCameraBuffer app
  CreateShaderBindingTable app

/-- What happens to the program after `OnInit`: a rendered frame (with the GPU progress during
its wait), a key release, the GPU getting ahead by some queue items while the CPU is
elsewhere, or a frame update. -/
inductive Event where
  | render (adv : Nat)
  | keyUp (key : Nat)
  | gpuAdvance (n : Nat)
  | update
  deriving DecidableEq, Repr

/-- One event applied to the application. -/
def Event.apply {M : Type} (env : Env M) (app : App M) : Event → Option (App M)
  | Event.render adv => OnRender env adv app
  | Event.keyUp key => some (OnKeyUp key app)
  | Event.gpuAdvance n => some { app with gpu := app.gpu.advance n }
  | Event.update => OnUpdate app

/-- A run: the events in order, stopping when a call fails or never returns. -/
def run {M : Type} (env : Env M) : List Event → App M → Option (App M)
  | [], app => some app
  | e :: es, app => (e.apply env app).bind (run env es)

/-- The three section start offsets `PopulateCommandList` adds to the address of the table:
ray generation at 0, miss after the ray-generation section, hit groups after both. -/
def sectionOffsets (t : ShaderBindingTableGenerator) : Nat × Nat × Nat :=
  (0, toUINT t.GetRayGenSectionSize, toUINT t.GetRayGenSectionSize + toUINT t.GetMissSectionSize)

/-! ## Reading a command list -/

/-- Whether a command is a top-level acceleration-structure build. -/
def Command.isBuildTopLevelAS {M : Type} : Command M → Bool
  | Command.BuildTopLevelAS _ _ _ _ => true
  | _ => false

/-- Whether a command is a `DispatchRays`. -/
def Command.isDispatchRays {M : Type} : Command M → Bool
  | Command.DispatchRays _ => true
  | _ => false

/-- Whether a command is a `CopyResource`. -/
def Command.isCopyResource {M : Type} : Command M → Bool
  | Command.CopyResource _ _ => true
  | _ => false

/-- The input-assembler bindings of a command list: the vertex buffer view set by the last
`IASetVertexBuffers(0, 1, ...)` and the index buffer view set by the last `IASetIndexBuffer`. -/
structure IABindings where
  vertexBuffer : Option BufferView
  indexBuffer : Option BufferView
  deriving DecidableEq, Repr

/-- The effect of one command on the input-assembler bindings. -/
def IABindings.step {M : Type} (b : IABindings) : Command M → IABindings
  | Command.IASetVertexBuffers view => { b with vertexBuffer := some view }
  | Command.IASetIndexBuffer view => { b with indexBuffer := some view }
  | _ => b

/-- The draw calls of a command list, each with the bindings in force when it is issued. -/
def drawBindings {M : Type} : IABindings → List (Command M) → List (Command M × IABindings)
  | _, [] => []
  | b, Command.DrawIndexedInstanced n :: rest =>
    (Command.DrawIndexedInstanced n, b) :: drawBindings b rest
  | b, Command.DrawInstanced n :: rest =>
    (Command.DrawInstanced n, b) :: drawBindings b rest
  | b, c :: rest => drawBindings (b.step c) rest

/-- The five geometry buffers: tetrahedron vertices and indices, plane vertices, Menger sponge
vertices and indices. -/
def Resource.isGeometry : Resource → Bool
  | Resource.m_vertexBuffer => true
  | Resource.m_indexBuffer => true
  | Resource.m_planeBuffer => true
  | Resource.m_mengerVB => true
  | Resource.m_mengerIB => true
  | _ => false

/-- The resources the GPU writes when it executes a command list, `rt` being the render target
bound so far: clears and draws write the render target, builds write their scratch and result
buffers, the ray dispatch writes the output image (the only unordered-access view of
`m_srvUavHeap`), a copy writes its destination. -/
def commandWrites {M : Type} : Option Nat → List (Command M) → List Resource
  | _, [] => []
  | _, Command.OMSetRenderTargets n :: rest => commandWrites (some n) rest
  | rt, Command.ClearRenderTargetView n :: rest => Resource.m_renderTargets n :: commandWrites rt rest
  | rt, Command.DrawIndexedInstanced _ :: rest =>
    (rt.map Resource.m_renderTargets).toList ++ commandWrites rt rest
  | rt, Command.DrawInstanced _ :: rest =>
    (rt.map Resource.m_renderTargets).toList ++ commandWrites rt rest
  | rt, Command.BuildBottomLevelAS _ scratch result :: rest =>
    scratch.toList ++ result.toList ++ commandWrites rt rest
  | rt, Command.BuildTopLevelAS _ scratch result _ :: rest =>
    scratch.toList ++ result.toList ++ commandWrites rt rest
  | rt, Command.DispatchRays _ :: rest => Resource.m_outputResource :: commandWrites rt rest
  | rt, Command.CopyResource dst _ :: rest => dst :: commandWrites rt rest
  | rt, _ :: rest => commandWrites rt rest

/-- The description of the output image: the fields `CreateRaytracingOutputBuffer` sets and the
state the image is created in. -/
structure OutputImageDesc where
  Width : Nat
  Height : Nat
  DepthOrArraySize : Nat
  MipLevels : Nat
  Flags : ResourceFlag
  initState : ResourceState
  deriving DecidableEq, Repr

/-- The member function `CreateRaytracingOutputBuffer`: the image it creates as
`m_outputResource`. -/
def CreateRaytracingOutputBuffer {M : Type} (env : Env M) : OutputImageDesc :=
  { Width := env.m_width
    Height := env.m_height
    DepthOrArraySize := 1
    MipLevels := 1
    Flags := ResourceFlag.ALLOW_UNORDERED_ACCESS
    initState := ResourceState.COPY_SOURCE }

/-- The vertex buffer a geometry was registered with. -/
def Geometry.vertexBuffer : Geometry → Resource
  | Geometry.indexed vertexBuffer _ _ _ => vertexBuffer
  | Geometry.nonIndexed vertexBuffer _ => vertexBuffer

/-- The geometries of the bottom-level build that a command list records with the given result
buffer (the first such build), if there is one. -/
def bottomLevelGeometries {M : Type} : List (Command M) → Option Resource → Option (List Geometry)
  | [], _ => none
  | Command.BuildBottomLevelAS geometries _ result :: rest, r =>
    if result = r then some geometries else bottomLevelGeometries rest r
  | _ :: rest, r => bottomLevelGeometries rest r

/-! ## Root signatures and the ray-tracing pipeline -/

/-- The root descriptor types `D3D12_ROOT_PARAMETER_TYPE_SRV`, `_CBV` and `_UAV`. -/
inductive RootParameterType where
  | SRV
  | CBV
  | UAV
  deriving DecidableEq, Repr

/-- The range types `D3D12_DESCRIPTOR_RANGE_TYPE_UAV`, `_SRV` and `_CBV`. -/
inductive DescriptorRangeType where
  | UAV
  | SRV
  | CBV
  deriving DecidableEq, Repr

/-- One range of a descriptor table, as the tuples passed to `AddHeapRangesParameter` give it:
base shader register, number of descriptors, register space, range type, offset in descriptors
from the start of the table. -/
structure HeapRange where
  baseShaderRegister : Nat
  numDescriptors : Nat
  registerSpace : Nat
  rangeType : DescriptorRangeType
  offsetInDescriptorsFromTableStart : Nat
  deriving DecidableEq, Repr

/-- A root parameter: a root descriptor bound to a shader register, or a descriptor table
made of heap ranges. -/
inductive RootParameter where
  | descriptor (type : RootParameterType) (shaderRegister : Nat)
  | descriptorTable (ranges : List HeapRange)
  deriving DecidableEq, Repr

/-- The helper object `nv_helpers_dx12::RootSignatureGenerator`: the root parameters added so
far, in order. -/
structure RootSignatureGenerator where
  m_parameters : List RootParameter
  deriving DecidableEq, Repr

/-- A root signature: its root parameters in order, and whether it is a local one. -/
structure RootSignature where
  parameters : List RootParameter
  isLocal : Bool
  deriving DecidableEq, Repr

/-- Modelled from the spec: `RootSignatureGenerator::AddRootParameter` (not among the sources)
adds one root parameter, a root descriptor of the given type at the given shader register. -/
def RootSignatureGenerator.AddRootParameter (g : RootSignatureGenerator) (type : RootParameterType)
    (shaderRegister : Nat) : RootSignatureGenerator :=
  { g with m_parameters := g.m_parameters ++ [RootParameter.descriptor type shaderRegister] }

/-- Modelled from the spec: `RootSignatureGenerator::AddHeapRangesParameter` (not among the
sources) adds one root parameter, a descriptor table holding the given ranges. -/
def RootSignatureGenerator.AddHeapRangesParameter (g : RootSignatureGenerator)
    (ranges : List HeapRange) : RootSignatureGenerator :=
  { g with m_parameters := g.m_parameters ++ [RootParameter.descriptorTable ranges] }

/-- Modelled from the spec: `RootSignatureGenerator::Generate` (not among the sources) makes the
root signature with the parameters added so far. -/
def RootSignatureGenerator.Generate (g : RootSignatureGenerator) (isLocal : Bool) : RootSignature :=
  { parameters := g.m_parameters, isLocal := isLocal }

/-- The member function `CreateRayGenSignature`: one descriptor table with the output image
(`u0`), the top-level acceleration structure (`t0`) and the camera (`b0`). -/
def CreateRayGenSignature : RootSignature :=
  let rsc : RootSignatureGenerator := ⟨[]⟩
  let rsc := rsc.AddHeapRangesParameter
    [⟨0, 1, 0, DescriptorRangeType.UAV, 0⟩, ⟨0, 1, 0, DescriptorRangeType.SRV, 1⟩,
     ⟨0, 1, 0, DescriptorRangeType.CBV, 2⟩]
  rsc.Generate true

/-- The member function `CreateMissSignature`: no root parameter. -/
def CreateMissSignature : RootSignature :=
  let rsc : RootSignatureGenerator := ⟨[]⟩
  rsc.Generate true

/-- The member function `CreateHitSignature`. -/
def CreateHitSignature : RootSignature :=
  let rsc : RootSignatureGenerator := ⟨[]⟩
  let rsc := rsc.AddRootParameter RootParameterType.SRV 0
  let rsc := rsc.AddRootParameter RootParameterType.SRV 1
  let rsc := rsc.AddRootParameter RootParameterType.CBV 0
  let rsc := rsc.AddHeapRangesParameter [⟨2, 1, 0, DescriptorRangeType.SRV, 1⟩]
  rsc.Generate true

/-- The helper object `nv_helpers_dx12::RayTracingPipelineGenerator`: the libraries with their
exported symbols, the hit groups (name, closest-hit symbol), the root-signature associations
and the three limits. -/
structure RayTracingPipelineGenerator where
  m_libraries : List (String × List String)
  m_hitGroups : List (String × String)
  m_rootSignatureAssociations : List (RootSignature × List String)
  m_maxPayLoadSizeInBytes : Nat
  m_maxAttributeSizeInBytes : Nat
  m_maxRecursionDepth : Nat
  deriving DecidableEq, Repr

/-- Modelled from the spec: `RayTracingPipelineGenerator::AddLibrary` (not among the sources)
registers a compiled library and the symbols it exports. -/
def RayTracingPipelineGenerator.AddLibrary (p : RayTracingPipelineGenerator) (library : String)
    (symbolExports : List String) : RayTracingPipelineGenerator :=
  { p with m_libraries := p.m_libraries ++ [(library, symbolExports)] }

/-- Modelled from the spec: `RayTracingPipelineGenerator::AddHitGroup` (not among the sources)
registers a hit group made of one closest-hit program. -/
def RayTracingPipelineGenerator.AddHitGroup (p : RayTracingPipelineGenerator)
    (hitGroupName closestHitSymbol : String) : RayTracingPipelineGenerator :=
  { p with m_hitGroups := p.m_hitGroups ++ [(hitGroupName, closestHitSymbol)] }

/-- Modelled from the spec: `RayTracingPipelineGenerator::AddRootSignatureAssociation` (not among
the sources) associates a root signature with the named programs and hit groups. -/
def RayTracingPipelineGenerator.AddRootSignatureAssociation (p : RayTracingPipelineGenerator)
    (rootSignature : RootSignature) (symbols : List String) : RayTracingPipelineGenerator :=
  { p with m_rootSignatureAssociations := p.m_rootSignatureAssociations ++ [(rootSignature, symbols)] }

/-- The root signature a pipeline associates with a program or hit group, if any. -/
def RayTracingPipelineGenerator.signatureOf (p : RayTracingPipelineGenerator) (symbol : String) :
    Option RootSignature :=
  (p.m_rootSignatureAssociations.find? (fun a => a.2.contains symbol)).map (fun a => a.1)

/-- The member function `CreateRaytracingPipeline`: the pipeline description it hands to
`Generate`.  `sizeof(float)` is 4. -/
def CreateRaytracingPipeline : RayTracingPipelineGenerator :=
  let pipeline : RayTracingPipelineGenerator := ⟨[], [], [], 0, 0, 1⟩
  let pipeline := pipeline.AddLibrary "RayGen.hlsl" ["RayGen"]
  let pipeline := pipeline.AddLibrary "Miss.hlsl" ["Miss"]
  let pipeline := pipeline.AddLibrary "Hit.hlsl" ["ClosestHit", "PlaneClosestHit"]
  let pipeline := pipeline.AddLibrary "ShadowRay.hlsl" ["ShadowClosestHit", "ShadowMiss"]
  let m_rayGenSignature := CreateRayGenSignature
  let m_missSignature := CreateMissSignature
  let m_hitSignature := CreateHitSignature
  let m_shadowSignature := CreateHitSignature
  let pipeline := pipeline.AddHitGroup "HitGroup" "ClosestHit"
  let pipeline := pipeline.AddHitGroup "PlaneHitGroup" "PlaneClosestHit"
  let pipeline := pipeline.AddHitGroup "ShadowHitGroup" "ShadowClosestHit"
  let pipeline := pipeline.AddRootSignatureAssociation m_rayGenSignature ["RayGen"]
  let pipeline := pipeline.AddRootSignatureAssociation m_missSignature ["Miss", "ShadowMiss"]
  let pipeline := pipeline.AddRootSignatureAssociation m_hitSignature ["HitGroup", "PlaneHitGroup"]
  let pipeline := pipeline.AddRootSignatureAssociation m_shadowSignature ["ShadowHitGroup"]
  { pipeline with m_maxPayLoadSizeInBytes := 4 * 4, m_maxAttributeSizeInBytes := 2 * 4,
                  m_maxRecursionDepth := 2 }

/-- The records a table declares, section after section, each with its program name and the
number of root arguments written into it. -/
def ShaderBindingTableGenerator.recordArguments (t : ShaderBindingTableGenerator) :
    List (String × Nat) :=
  (t.m_rayGen ++ t.m_miss ++ t.m_hitGroup).map (fun e => (e.m_entryPoint, e.m_inputData.length))

/-- The number of root parameters of the root signature `CreateRaytracingPipeline` associates
with a program or hit group. -/
def rootParameterCount (symbol : String) : Option Nat :=
  (CreateRaytracingPipeline.signatureOf symbol).map (fun s => s.parameters.length)

/-! ## Resource states along the command lists -/

/-- The state every resource is in. -/
def ResourceStates : Type := Resource → ResourceState

/-- One resource moves to a new state. -/
def ResourceStates.set (st : ResourceStates) (r : Resource) (s : ResourceState) : ResourceStates :=
  fun x => if x = r then s else st x

/-- The effect of one command on the resource states, as the GPU executes it.  A transition
barrier needs the resource in the state it names as `before` and leaves it in the `after` state;
`DispatchRays` writes the output image through its unordered-access view and needs it in
`UNORDERED_ACCESS`; `CopyResource` needs its source in `COPY_SOURCE` and its destination in
`COPY_DEST`.  The result is `none` when the command finds a resource in another state. -/
def Command.execStates {M : Type} (st : ResourceStates) : Command M → Option ResourceStates
  | Command.ResourceBarrier r before after => if st r = before then some (st.set r after) else none
  | Command.DispatchRays _ =>
    if st Resource.m_outputResource = ResourceState.UNORDERED_ACCESS then some st else none
  | Command.CopyResource dst src =>
    if st src = ResourceState.COPY_SOURCE ∧ st dst = ResourceState.COPY_DEST then some st else none
  | _ => some st

/-- The commands of one list executed in order. -/
def execStates {M : Type} : ResourceStates → List (Command M) → Option ResourceStates
  | st, [] => some st
  | st, c :: cs => (c.execStates st).bind (fun st => execStates st cs)

/-- The submitted command lists executed in order. -/
def execLists {M : Type} : ResourceStates → List (List (Command M)) → Option ResourceStates
  | st, [] => some st
  | st, l :: ls => (execStates st l).bind (fun st => execLists st ls)

/-- The states before the first frame: every swap-chain buffer in `PRESENT`, the output image in
the state `CreateRaytracingOutputBuffer` creates it in.  The geometry buffers are created in
`GENERIC_READ`; no command of the program looks at the state of a buffer, and the same state
stands for all of them. -/
def initialStates {M : Type} (env : Env M) : ResourceStates
  | Resource.m_renderTargets _ => ResourceState.PRESENT
  | Resource.m_outputResource => (CreateRaytracingOutputBuffer env).initState
  | _ => ResourceState.GENERIC_READ

/-- The states between two frames: every swap-chain buffer in `PRESENT` and the output image in
`COPY_SOURCE`. -/
def ResourceStates.atRest (st : ResourceStates) : Prop :=
  (∀ n, st (Resource.m_renderTargets n) = ResourceState.PRESENT) ∧
    st Resource.m_outputResource = ResourceState.COPY_SOURCE

/-- A command list that can be executed whenever the resources are at rest, and leaves them at
rest. -/
def frameSafe {M : Type} (l : List (Command M)) : Prop :=
  ∀ st : ResourceStates, st.atRest → ∃ st', execStates st l = some st' ∧ st'.atRest

/-- Whether an event is a rendered frame. -/
def Event.isRender : Event → Bool
  | Event.render _ => true
  | _ => false

/-- A concrete environment: a device that supports ray tracing at tier 1.0, a swap chain of two
buffers, a 1280 by 720 window. -/
def exampleEnv : Env Unit :=
  { sizes := ⟨fun gs => (256 * gs.length, 512 * gs.length), fun n => (256, 512, 64 * n)⟩
    gpuVirtualAddress := fun _ => 4096
    FrameCount := 2
    XMMatrixIdentity := ()
    XMMatrixTranslation000 := ()
    checkFeatureSupportSucceeds := true
    RaytracingTier := 10
    m_width := 1280
    m_height := 720 }

/-- The application right after the constructor, ray-traced path selected, for a sponge of
100 vertices and 200 indices. -/
def exampleApp : App Unit := App.initial false 100 200

/-- The application after `OnInit` in the concrete environment. -/
def exampleInitialised : App Unit := (OnInit exampleEnv 0 exampleApp).getD exampleApp

/-- The initialised application with its command list reset, as it is while a frame is being
recorded. -/
def exampleRecording : App Unit :=
  { exampleInitialised with m_commandList := { recording := true, commands := [] } }

/-- The application after `OnInit` and one rendered frame during which the GPU made no progress
of its own. -/
def exampleFirstFrame : App Unit := (OnRender exampleEnv 0 exampleInitialised).getD exampleInitialised

/-- The initialised application with `m_fenceValue` at the largest `UINT64` value. -/
def exampleFenceAtMax : App Unit := { exampleInitialised with m_fenceValue := 2 ^ 64 - 1 }

/-- A table with one ray-generation, one miss and one hit-group record, none with arguments. -/
def exampleBareTable : ShaderBindingTableGenerator :=
  ⟨[⟨"RayGen", []⟩], [⟨"Miss", []⟩], [⟨"HitGroup", []⟩]⟩

/-! ## Lemmas on the generators -/

theorem toUINT_toUINT64 (n : Nat) : toUINT (toUINT64 n) = n % 2 ^ 32 := by
  unfold toUINT toUINT64
  omega

theorem CreateTopLevelAS.loop_instances {M : Type} (l : List (Option Resource × M)) :
    ∀ (i : Nat) (g : TopLevelASGenerator M),
      (CreateTopLevelAS.loop i l g).m_instances =
        g.m_instances ++ (l.enumFrom i).map
          (fun p => (⟨p.2.1, p.2.2, p.1 % 2 ^ 32, 2 * p.1 % 2 ^ 32⟩ : Instance M)) := by
  induction l with
  | nil => intro i g; simp [CreateTopLevelAS.loop]
  | cons a l ih =>
    intro i g
    have e : toUINT (toUINT64 (2 * i)) = 2 * i % 2 ^ 32 := toUINT_toUINT64 _
    simp [CreateTopLevelAS.loop, ih, TopLevelASGenerator.AddInstance, e]
    rfl

theorem CreateTopLevelAS_generator {M : Type} (env : Env M) (instances : List (Option Resource × M))
    (app : App M) :
    (CreateTopLevelAS env instances app).m_topLevelASGenerator.m_instances =
      app.m_topLevelASGenerator.m_instances ++ (instances.enumFrom 0).map
        (fun p => (⟨p.2.1, p.2.2, p.1 % 2 ^ 32, 2 * p.1 % 2 ^ 32⟩ : Instance M)) := by
  simp [CreateTopLevelAS, App.record, App.CreateBuffer, App.write, CreateTopLevelAS.loop_instances]

theorem CreateTopLevelAS_getElem? {M : Type} (env : Env M) (instances : List (Option Resource × M))
    (app : App M) (i : Nat) (p : Option Resource × M) (hp : instances[i]? = some p) :
    (CreateTopLevelAS env instances app).m_topLevelASGenerator.m_instances[
        app.m_topLevelASGenerator.m_instances.length + i]? =
      some ⟨p.1, p.2, i % 2 ^ 32, 2 * i % 2 ^ 32⟩ := by
  rw [CreateTopLevelAS_generator, List.getElem?_append_right (Nat.le_add_right _ _)]
  simp [List.getElem?_enumFrom, hp]

/-! ## Lemmas on the frame cycle -/

theorem GPU.advance_nil (n c : Nat) (f : List Nat) : GPU.advance n ⟨[], c, f⟩ = ⟨[], c, f⟩ := by
  induction n with
  | zero => rfl
  | succ n ih => simpa [GPU.advance, GPU.step] using ih

theorem GPU.waitLoop_reached (v : Nat) :
    ∀ (fuel : Nat) (g g' : GPU), GPU.waitLoop v fuel g = some g' → v ≤ g'.completedValue := by
  intro fuel
  induction fuel with
  | zero =>
    intro g g' h
    simp only [GPU.waitLoop] at h
    split at h
    · cases h; assumption
    · cases h
  | succ n ih =>
    intro g g' h
    simp only [GPU.waitLoop] at h
    split at h
    · cases h; assumption
    · exact ih _ _ h

/-- What `WaitForPreviousFrame` changes: it signals the old `m_fenceValue`, increments it, lets
the GPU run, and reads the back-buffer index; when it returns the fence has reached the value. -/
theorem WaitForPreviousFrame_spec {M : Type} (adv : Nat) (app a : App M)
    (h : WaitForPreviousFrame adv app = some a) :
    a = { app with m_fenceValue := toUINT64 (app.m_fenceValue + 1),
                   signalled := app.signalled ++ [app.m_fenceValue],
                   gpu := a.gpu, m_frameIndex := app.backBufferIndex } ∧
      app.m_fenceValue ≤ a.gpu.completedValue := by
  simp only [WaitForPreviousFrame, App.Signal, Option.bind_eq_bind] at h
  split at h
  · rename_i hlt
    simp only [Option.map_eq_map, Option.bind_eq_some, Option.map_eq_some'] at h
    obtain ⟨b, ⟨g, hg, hb⟩, hab⟩ := h
    subst hb
    cases hab
    exact ⟨rfl, GPU.waitLoop_reached _ _ _ _ hg⟩
  · rename_i hlt
    simp only [Option.some_bind] at h
    cases h
    exact ⟨rfl, Nat.le_of_not_lt hlt⟩

/-- What `PopulateCommandList` leaves alone, and what it does to the top-level generator: it
needs a closed command list, leaves one behind, touches neither the queue nor the fence, and on the
ray-traced path registers the whole instance list once more. -/
theorem PopulateCommandList_spec {M : Type} (env : Env M) (app a : App M)
    (h : PopulateCommandList env app = some a) :
    app.m_commandList.recording = false ∧ a.m_commandList.recording = false ∧
      a.m_raster = app.m_raster ∧ a.m_instances = app.m_instances ∧ a.gpu = app.gpu ∧
      a.signalled = app.signalled ∧ a.m_fenceValue = app.m_fenceValue ∧
      a.submissions = app.submissions ∧ a.backBufferIndex = app.backBufferIndex ∧
      a.m_sbtHelper = app.m_sbtHelper ∧
      a.m_topLevelASGenerator.m_instances =
        (if app.m_raster then app.m_topLevelASGenerator.m_instances
         else app.m_topLevelASGenerator.m_instances ++ (app.m_instances.enumFrom 0).map
          (fun p => (⟨p.2.1, p.2.2, p.1 % 2 ^ 32, 2 * p.1 % 2 ^ 32⟩ : Instance M))) := by
  cases hrec : app.m_commandList.recording with
  | true => simp [PopulateCommandList, CommandList.Reset, hrec] at h
  | false =>
    cases hr : app.m_raster with
    | true =>
      simp [PopulateCommandList, CommandList.Reset, CommandList.Close, App.record, hrec, hr] at h
      subst h
      simp
    | false =>
      simp [PopulateCommandList, CommandList.Reset, CommandList.Close, App.record, hrec, hr,
        CreateTopLevelAS, App.CreateBuffer, App.write] at h
      subst h
      simp [CreateTopLevelAS.loop_instances]

theorem PopulateCommandList_isSome {M : Type} (env : Env M) (app : App M)
    (h : app.m_commandList.recording = false) : ∃ a, PopulateCommandList env app = some a := by
  cases hr : app.m_raster with
  | true => simp [PopulateCommandList, CommandList.Reset, CommandList.Close, App.record, h, hr]
  | false =>
    simp [PopulateCommandList, CommandList.Reset, CommandList.Close, App.record, h, hr,
      CreateTopLevelAS, App.CreateBuffer, App.write]

/-- What one `OnRender` does to the fence, the signal log and the top-level generator. -/
theorem OnRender_spec {M : Type} (env : Env M) (adv : Nat) (app a : App M)
    (h : OnRender env adv app = some a) :
    a.m_raster = app.m_raster ∧ a.m_instances = app.m_instances ∧
      a.m_commandList.recording = false ∧
      a.signalled = app.signalled ++ [app.m_fenceValue] ∧
      a.m_fenceValue = toUINT64 (app.m_fenceValue + 1) ∧
      a.submissions = app.submissions + 1 ∧
      a.m_sbtHelper = app.m_sbtHelper ∧
      a.m_topLevelASGenerator.m_instances =
        (if app.m_raster then app.m_topLevelASGenerator.m_instances
         else app.m_topLevelASGenerator.m_instances ++ (app.m_instances.enumFrom 0).map
          (fun p => (⟨p.2.1, p.2.2, p.1 % 2 ^ 32, 2 * p.1 % 2 ^ 32⟩ : Instance M))) := by
  simp only [OnRender, Option.bind_eq_bind, Option.bind_eq_some] at h
  obtain ⟨b, hb, hw⟩ := h
  obtain ⟨_, h2, h3, h4, h5, h6, h7, h8, h9, h10, h11⟩ := PopulateCommandList_spec env app b hb
  obtain ⟨e, _⟩ := WaitForPreviousFrame_spec adv _ a hw
  rw [e]
  simp [App.Present, App.ExecuteCommandLists, h2, h3, h4, h5, h6, h7, h8, h9, h10, h11]

theorem LoadAssets_initial {M : Type} (adv : Nat) (r : Bool) (vc ic : Nat) :
    LoadAssets adv (App.initial r vc ic : App M) =
      some { (App.initial r vc ic : App M) with
        m_commandList := ⟨true, []⟩, m_fenceValue := 2, signalled := [1], gpu := ⟨[], 1, []⟩,
        cpuWrites := [Resource.m_vertexBuffer, Resource.m_mengerVB, Resource.m_mengerIB,
          Resource.m_indexBuffer, Resource.m_planeBuffer] } := by
  have key : ∀ n, GPU.advance n ⟨[QueueItem.Signal 1], 0, []⟩ = ⟨[QueueItem.Signal 1], 0, []⟩ ∨
      GPU.advance n ⟨[QueueItem.Signal 1], 0, []⟩ = ⟨[], 1, []⟩ := by
    intro n
    cases n with
    | zero => left; rfl
    | succ n => right; simp [GPU.advance, GPU.step, GPU.advance_nil]
  simp only [LoadAssets, WaitForPreviousFrame, App.initial, App.Signal, App.write,
    List.nil_append, List.cons_append]
  rcases key adv with e | e <;> rw [e] <;>
    simp [GPU.wait, GPU.waitLoop, GPU.step, toUINT64]

/-- The state `OnInit` returns, field by field, for the fields the proofs below read. -/
theorem OnInit_result {M : Type} (env : Env M) (adv : Nat) (r : Bool) (vc ic : Nat) (a : App M)
    (h : OnInit env adv (App.initial r vc ic) = some a) :
    a.m_raster = r ∧ a.signalled = [1, 3] ∧ a.m_fenceValue = 3 ∧ a.gpu = ⟨[], 3, [1]⟩ ∧
      a.submissions = 1 ∧ a.m_commandList = ⟨false, []⟩ ∧
      a.m_instances = [(some (Resource.buffer 1), env.XMMatrixIdentity),
                       (some (Resource.buffer 3), env.XMMatrixTranslation000)] ∧
      a.m_topLevelASGenerator.m_instances =
        [⟨some (Resource.buffer 1), env.XMMatrixIdentity, 0, 0⟩,
         ⟨some (Resource.buffer 3), env.XMMatrixTranslation000, 1, 2⟩] ∧
      a.m_sbtHelper =
        ⟨[⟨"RayGen", [SBTArg.heapPointer]⟩],
         [⟨"Miss", []⟩, ⟨"ShadowMiss", []⟩],
         [⟨"HitGroup", [SBTArg.gpuVirtualAddress Resource.m_mengerVB,
                        SBTArg.gpuVirtualAddress Resource.m_mengerIB,
                        SBTArg.gpuVirtualAddress (Resource.buffer 7)]⟩,
          ⟨"ShadowHitGroup", []⟩,
          ⟨"PlaneHitGroup", [SBTArg.gpuVirtualAddress (Resource.buffer 7), SBTArg.heapPointer]⟩]⟩ ∧
      a.backBufferIndex = 0 := by
  simp only [OnInit, LoadAssets_initial, Option.some_bind, Option.bind_eq_bind] at h
  by_cases h1 : env.checkFeatureSupportSucceeds = false
  · simp [CheckRaytracingSupport, h1] at h
  by_cases h2 : env.RaytracingTier < 10
  · simp [CheckRaytracingSupport, h1, h2] at h
  simp [CheckRaytracingSupport, h1, h2] at h
  simp [GPU.wait, CreateAccelerationStructure, CreateBottomLevelAS, CreateTopLevelAS,
      CreateTopLevelAS.loop, CreateBottomLevelAS.loop, TopLevelASGenerator.AddInstance,
      App.record, App.CreateBuffer, App.write, CreateBuffer, App.ExecuteCommandLists, App.Signal,
      CommandList.Close, CommandList.Reset, App.initial,
      GPU.waitLoop, GPU.step, toUINT64, toUINT,
      CreatePerInstanceConstantBuffers, CreateGlobalConstantBuffer, CreateCameraBuffer,
      CreateShaderBindingTable, ShaderBindingTableGenerator.Reset,
      ShaderBindingTableGenerator.AddRayGenerationProgram, ShaderBindingTableGenerator.AddMissProgram,
      ShaderBindingTableGenerator.AddHitGroup] at h
  subst h
  simp

/-- On a device that passes the ray-tracing check, `OnInit` returns. -/
theorem OnInit_isSome {M : Type} (env : Env M) (adv : Nat) (r : Bool) (vc ic : Nat)
    (h1 : env.checkFeatureSupportSucceeds = true) (h2 : 10 ≤ env.RaytracingTier) :
    ∃ a, OnInit env adv (App.initial r vc ic) = some a := by
  have h2' : ¬ env.RaytracingTier < 10 := Nat.not_lt.mpr h2
  simp only [OnInit, LoadAssets_initial, Option.some_bind, Option.bind_eq_bind]
  simp [CheckRaytracingSupport, h1, h2']
  simp [GPU.wait, CreateAccelerationStructure, CreateBottomLevelAS, CreateTopLevelAS,
      CreateTopLevelAS.loop, CreateBottomLevelAS.loop, TopLevelASGenerator.AddInstance,
      App.record, App.CreateBuffer, App.write, CreateBuffer, App.ExecuteCommandLists, App.Signal,
      CommandList.Close, CommandList.Reset, App.initial,
      GPU.waitLoop, GPU.step, toUINT64, toUINT,
      CreatePerInstanceConstantBuffers, CreateGlobalConstantBuffer, CreateCameraBuffer,
      CreateShaderBindingTable, ShaderBindingTableGenerator.Reset,
      ShaderBindingTableGenerator.AddRayGenerationProgram, ShaderBindingTableGenerator.AddMissProgram,
      ShaderBindingTableGenerator.AddHitGroup]

/-- After `OnInit` the camera buffer is buffer 11, and the CPU has written the five geometry
buffers, then the instance descriptors, the constant buffers and the table. -/
theorem OnInit_buffers {M : Type} (env : Env M) (adv : Nat) (r : Bool) (vc ic : Nat) (a : App M)
    (h : OnInit env adv (App.initial r vc ic) = some a) :
    a.m_cameraBuffer = some (Resource.buffer 11) ∧
      a.cpuWrites = [Resource.m_vertexBuffer, Resource.m_mengerVB, Resource.m_mengerIB,
        Resource.m_indexBuffer, Resource.m_planeBuffer, Resource.buffer 6, Resource.buffer 7,
        Resource.buffer 8, Resource.buffer 9, Resource.buffer 10, Resource.buffer 12] ∧
      a.m_frameIndex = 0 ∧ a.m_mengerIndexCount = ic ∧ a.allocations.length = 13 := by
  simp only [OnInit, LoadAssets_initial, Option.some_bind, Option.bind_eq_bind] at h
  by_cases h1 : env.checkFeatureSupportSucceeds = false
  · simp [CheckRaytracingSupport, h1] at h
  by_cases h2 : env.RaytracingTier < 10
  · simp [CheckRaytracingSupport, h1, h2] at h
  simp [CheckRaytracingSupport, h1, h2] at h
  simp [GPU.wait, CreateAccelerationStructure, CreateBottomLevelAS, CreateTopLevelAS,
      CreateTopLevelAS.loop, CreateBottomLevelAS.loop, TopLevelASGenerator.AddInstance,
      App.record, App.CreateBuffer, App.write, CreateBuffer, App.ExecuteCommandLists, App.Signal,
      CommandList.Close, CommandList.Reset, App.initial,
      GPU.waitLoop, GPU.step, toUINT64, toUINT,
      CreatePerInstanceConstantBuffers, CreateGlobalConstantBuffer, CreateCameraBuffer,
      CreateShaderBindingTable, ShaderBindingTableGenerator.Reset,
      ShaderBindingTableGenerator.AddRayGenerationProgram, ShaderBindingTableGenerator.AddMissProgram,
      ShaderBindingTableGenerator.AddHitGroup] at h
  subst h
  simp

/-- The command list `OnInit` submits builds the bottom-level structure in buffer 1 from the
Menger sponge's vertex buffer and the one in buffer 3 from the plane's. -/
theorem OnInit_scene {M : Type} (env : Env M) (adv : Nat) (r : Bool) (vc ic : Nat) (a : App M)
    (h : OnInit env adv (App.initial r vc ic) = some a) :
    (bottomLevelGeometries a.submitted.flatten (some (Resource.buffer 1))).map
        (List.map Geometry.vertexBuffer) = some [Resource.m_mengerVB] ∧
      (bottomLevelGeometries a.submitted.flatten (some (Resource.buffer 3))).map
        (List.map Geometry.vertexBuffer) = some [Resource.m_planeBuffer] := by
  simp only [OnInit, LoadAssets_initial, Option.some_bind, Option.bind_eq_bind] at h
  by_cases h1 : env.checkFeatureSupportSucceeds = false
  · simp [CheckRaytracingSupport, h1] at h
  by_cases h2 : env.RaytracingTier < 10
  · simp [CheckRaytracingSupport, h1, h2] at h
  simp [CheckRaytracingSupport, h1, h2] at h
  simp [GPU.wait, CreateAccelerationStructure, CreateBottomLevelAS, CreateTopLevelAS,
      CreateTopLevelAS.loop, CreateBottomLevelAS.loop, TopLevelASGenerator.AddInstance,
      App.record, App.CreateBuffer, App.write, CreateBuffer, App.ExecuteCommandLists, App.Signal,
      CommandList.Close, CommandList.Reset, App.initial,
      GPU.waitLoop, GPU.step, toUINT64, toUINT,
      CreatePerInstanceConstantBuffers, CreateGlobalConstantBuffer, CreateCameraBuffer,
      CreateShaderBindingTable, ShaderBindingTableGenerator.Reset,
      ShaderBindingTableGenerator.AddRayGenerationProgram, ShaderBindingTableGenerator.AddMissProgram,
      ShaderBindingTableGenerator.AddHitGroup] at h
  subst h
  by_cases hic : 0 < ic <;> simp [bottomLevelGeometries, Geometry.vertexBuffer, hic]

theorem exampleInitialised_eq : OnInit exampleEnv 0 exampleApp = some exampleInitialised := rfl

/-- On the ray-traced path the command list of a frame holds a top-level build, and that build
is handed every descriptor the generator holds at that moment. -/
theorem OnRender_build {M : Type} (env : Env M) (adv : Nat) (app a : App M)
    (hr : app.m_raster = false) (h : OnRender env adv app = some a) :
    ∃ s r d, Command.BuildTopLevelAS a.m_topLevelASGenerator.m_instances s r d ∈
      a.m_commandList.commands := by
  simp only [OnRender, Option.bind_eq_bind, Option.bind_eq_some] at h
  obtain ⟨b, hb, hw⟩ := h
  obtain ⟨e, _⟩ := WaitForPreviousFrame_spec adv _ a hw
  have hb' : ∃ s r d, Command.BuildTopLevelAS b.m_topLevelASGenerator.m_instances s r d ∈
      b.m_commandList.commands := by
    cases hrec : app.m_commandList.recording with
    | true => simp [PopulateCommandList, CommandList.Reset, hrec] at hb
    | false =>
      simp [PopulateCommandList, CommandList.Reset, CommandList.Close, App.record, hrec, hr,
        CreateTopLevelAS, App.CreateBuffer, App.write] at hb
      subst hb
      simp
  rw [e]
  simpa [App.Present, App.ExecuteCommandLists] using hb'

/-- Rendering frames on the ray-traced path: every frame appends the descriptors of the whole
instance list to the generator; the path and the instance list stay as they are. -/
theorem run_render_generator {M : Type} (env : Env M) :
    ∀ (advs : List Nat) (app0 app : App M), app0.m_raster = false →
      run env (advs.map Event.render) app0 = some app →
      app.m_raster = false ∧ app.m_instances = app0.m_instances ∧
      app.m_topLevelASGenerator.m_instances =
        app0.m_topLevelASGenerator.m_instances ++
          (List.replicate advs.length ((app0.m_instances.enumFrom 0).map
            (fun p => (⟨p.2.1, p.2.2, p.1 % 2 ^ 32, 2 * p.1 % 2 ^ 32⟩ : Instance M)))).flatten := by
  intro advs
  induction advs with
  | nil =>
    intro app0 app hr h
    simp only [List.map_nil, run, Option.some.injEq] at h
    subst h
    simp [hr]
  | cons adv rest ih =>
    intro app0 app hr h
    simp only [List.map_cons, run, Event.apply, Option.bind_eq_some] at h
    obtain ⟨b, hb, hrest⟩ := h
    obtain ⟨h1, h2, _, _, _, _, _, h8⟩ := OnRender_spec env adv app0 b hb
    obtain ⟨i1, i2, i3⟩ := ih b app (h1.trans hr) hrest
    refine ⟨i1, i2.trans h2, ?_⟩
    rw [i3, h8, h2]
    simp [hr, List.replicate_succ]

/-! ## Lemmas on the shader binding table -/

/-- The table `CreateShaderBindingTable` declares, the buffer it allocates, and where it keeps
it. -/
theorem CreateShaderBindingTable_spec {M : Type} (app a : App M)
    (h : CreateShaderBindingTable app = some a) :
    ∃ cb0, app.m_perInstanceConstantBuffers[0]? = some cb0 ∧
      a.m_sbtHelper =
        ⟨[⟨"RayGen", [SBTArg.heapPointer]⟩],
         [⟨"Miss", []⟩, ⟨"ShadowMiss", []⟩],
         [⟨"HitGroup", [SBTArg.gpuVirtualAddress Resource.m_mengerVB,
                        SBTArg.gpuVirtualAddress Resource.m_mengerIB,
                        SBTArg.gpuVirtualAddress cb0]⟩,
          ⟨"ShadowHitGroup", []⟩,
          ⟨"PlaneHitGroup", [SBTArg.gpuVirtualAddress cb0, SBTArg.heapPointer]⟩]⟩ ∧
      a.allocations = app.allocations ++
        [⟨toUINT a.m_sbtHelper.ComputeSBTSize, ResourceFlag.NONE, ResourceState.GENERIC_READ,
          HeapProps.kUploadHeapProps⟩] ∧
      a.m_sbtStorage = some (Resource.buffer app.allocations.length) := by
  simp only [CreateShaderBindingTable, Option.bind_eq_bind, Option.bind_eq_some] at h
  obtain ⟨cb0, hcb, h⟩ := h
  refine ⟨cb0, hcb, ?_⟩
  simp only [Option.some.injEq] at h
  subst h
  simp [App.CreateBuffer, App.write, CreateBuffer, ShaderBindingTableGenerator.Reset,
    ShaderBindingTableGenerator.AddRayGenerationProgram, ShaderBindingTableGenerator.AddMissProgram,
    ShaderBindingTableGenerator.AddHitGroup]

/-- The strides and section sizes of the table `CreateShaderBindingTable` declares. -/
theorem CreateShaderBindingTable_sizes {M : Type} (app a : App M)
    (h : CreateShaderBindingTable app = some a) :
    a.m_sbtHelper.GetRayGenEntrySize = 64 ∧ a.m_sbtHelper.GetMissEntrySize = 32 ∧
      a.m_sbtHelper.GetHitGroupEntrySize = 64 ∧ a.m_sbtHelper.GetRayGenSectionSize = 64 ∧
      a.m_sbtHelper.GetMissSectionSize = 64 ∧ a.m_sbtHelper.GetHitGroupSectionSize = 192 ∧
      a.m_sbtHelper.ComputeSBTSize = 320 := by
  obtain ⟨cb0, _, ht, _⟩ := CreateShaderBindingTable_spec app a h
  rw [ht]
  simp [ShaderBindingTableGenerator.ComputeSBTSize, ShaderBindingTableGenerator.GetRayGenSectionSize,
    ShaderBindingTableGenerator.GetMissSectionSize, ShaderBindingTableGenerator.GetHitGroupSectionSize,
    ShaderBindingTableGenerator.GetRayGenEntrySize, ShaderBindingTableGenerator.GetMissEntrySize,
    ShaderBindingTableGenerator.GetHitGroupEntrySize, ShaderBindingTableGenerator.GetEntrySize,
    ShaderBindingTableGenerator.recordSize, ShaderBindingTableGenerator.roundUp,
    ShaderBindingTableGenerator.progIdSize, ShaderBindingTableGenerator.argSize,
    ShaderBindingTableGenerator.recordAlignment]

/-- Rounding up to the record alignment commutes with taking a maximum. -/
theorem ShaderBindingTableGenerator.roundUp_max (a b : Nat) :
    roundUp (max a b) recordAlignment = max (roundUp a recordAlignment) (roundUp b recordAlignment) := by
  simp only [roundUp, recordAlignment]
  rcases Nat.le_total a b with h | h
  · rw [Nat.max_eq_right h, Nat.max_eq_right (by omega)]
  · rw [Nat.max_eq_left h, Nat.max_eq_left (by omega)]

/-- Rounding up a second time changes nothing. -/
theorem ShaderBindingTableGenerator.roundUp_roundUp (a : Nat) :
    roundUp (roundUp a recordAlignment) recordAlignment = roundUp a recordAlignment := by
  simp only [roundUp, recordAlignment]
  omega

/-- The maximum of the rounded record sizes is the rounded maximum of the raw record sizes. -/
theorem ShaderBindingTableGenerator.foldl_max_recordSize (entries : List SBTEntry) :
    ∀ acc : Nat,
      (entries.map recordSize).foldl max (roundUp acc recordAlignment) =
        roundUp ((entries.map fun e => progIdSize + e.m_inputData.length * argSize).foldl max acc)
          recordAlignment := by
  induction entries with
  | nil => intro acc; rfl
  | cons e es ih =>
    intro acc
    simp only [List.map_cons, List.foldl_cons]
    rw [← ih, roundUp_max]
    rfl

/-- The stride of a section is the largest raw record size of the section, rounded up to the
record alignment. -/
theorem ShaderBindingTableGenerator.GetEntrySize_eq (entries : List SBTEntry) :
    GetEntrySize entries =
      roundUp ((entries.map fun e => progIdSize + e.m_inputData.length * argSize).foldl max 0)
        recordAlignment := by
  have h0 : roundUp 0 recordAlignment = 0 := by decide
  have := foldl_max_recordSize entries 0
  rw [h0] at this
  rw [GetEntrySize, this, roundUp_roundUp]

/-- Every stride is a multiple of the record alignment. -/
theorem ShaderBindingTableGenerator.GetEntrySize_mod (entries : List SBTEntry) :
    GetEntrySize entries % recordAlignment = 0 := by
  simp only [GetEntrySize, roundUp, recordAlignment]
  omega

/-! ## The calls return -/

theorem GPU.advance_pending_nil (n : Nat) (g : GPU) (h : g.pending = []) : GPU.advance n g = g := by
  induction n with
  | zero => rfl
  | succ n ih =>
    have : g.step = g := by simp [GPU.step, h]
    simp [GPU.advance, this, ih]

/-- Waiting for a value whose signal is in the queue ends. -/
theorem GPU.waitLoop_isSome (v : Nat) :
    ∀ (fuel : Nat) (g : GPU), (∃ w, v ≤ w ∧ QueueItem.Signal w ∈ g.pending) →
      g.pending.length ≤ fuel → ∃ g', GPU.waitLoop v fuel g = some g' := by
  intro fuel
  induction fuel with
  | zero =>
    intro g ⟨w, _, hw⟩ hl
    have : g.pending = [] := List.length_eq_zero.mp (Nat.le_zero.mp hl)
    rw [this] at hw
    cases hw
  | succ n ih =>
    intro g ⟨w, hvw, hw⟩ hl
    simp only [GPU.waitLoop]
    split
    · exact ⟨g, rfl⟩
    · rename_i hnot
      obtain ⟨p, c, f⟩ := g
      cases p with
      | nil => cases hw
      | cons x rest =>
        simp only [List.length_cons, Nat.add_le_add_iff_right] at hl
        cases x with
        | ExecuteCommandLists k =>
          have hw' : QueueItem.Signal w ∈ rest := by simpa using hw
          exact ih _ ⟨w, hvw, by simpa [GPU.step] using hw'⟩ (by simpa [GPU.step] using hl)
        | Present =>
          have hw' : QueueItem.Signal w ∈ rest := by simpa using hw
          exact ih _ ⟨w, hvw, by simpa [GPU.step] using hw'⟩ (by simpa [GPU.step] using hl)
        | Signal u =>
          rcases List.mem_cons.mp hw with e | hw'
          · cases e
            cases n with
            | zero => exact ⟨⟨rest, w, f⟩, by simp [GPU.waitLoop, GPU.step, hvw]⟩
            | succ m => exact ⟨⟨rest, w, f⟩, by simp [GPU.waitLoop, GPU.step, hvw]⟩
          · exact ih _ ⟨w, hvw, by simpa [GPU.step] using hw'⟩ (by simpa [GPU.step] using hl)

/-- While the GPU runs, a signal queued last is either still queued or the fence holds its
value. -/
theorem GPU.advance_signal_last (v : Nat) :
    ∀ (n : Nat) (g : GPU) (l : List QueueItem), g.pending = l ++ [QueueItem.Signal v] →
      QueueItem.Signal v ∈ (GPU.advance n g).pending ∨ (GPU.advance n g).completedValue = v := by
  intro n
  induction n with
  | zero =>
    intro g l h
    left
    simp [GPU.advance, h]
  | succ n ih =>
    intro g l h
    obtain ⟨p, c, f⟩ := g
    simp only at h
    subst h
    cases l with
    | nil =>
      right
      simp [GPU.advance, GPU.step, GPU.advance_nil]
    | cons x rest =>
      cases x <;> exact ih _ rest (by simp [GPU.step])

/-- The call `WaitForPreviousFrame` always returns: the signal it waits for is in the queue. -/
theorem WaitForPreviousFrame_isSome {M : Type} (adv : Nat) (app : App M) :
    ∃ a, WaitForPreviousFrame adv app = some a := by
  simp only [WaitForPreviousFrame, App.Signal, Option.bind_eq_bind]
  split
  · rename_i hlt
    rcases GPU.advance_signal_last app.m_fenceValue adv
        { app.gpu with pending := app.gpu.pending ++ [QueueItem.Signal app.m_fenceValue] }
        app.gpu.pending rfl with hmem | heq
    · obtain ⟨g', hg'⟩ := GPU.waitLoop_isSome app.m_fenceValue _ _
        ⟨app.m_fenceValue, Nat.le_refl _, hmem⟩ (Nat.le_refl _)
      simp [GPU.wait, hg']
    · rw [heq] at hlt
      exact absurd hlt (Nat.lt_irrefl _)
  · simp

/-- With a closed command list, `OnRender` returns. -/
theorem OnRender_isSome {M : Type} (env : Env M) (adv : Nat) (app : App M)
    (h : app.m_commandList.recording = false) : ∃ a, OnRender env adv app = some a := by
  obtain ⟨b, hb⟩ := PopulateCommandList_isSome env app h
  obtain ⟨a, ha⟩ := WaitForPreviousFrame_isSome adv ((b.ExecuteCommandLists).Present env)
  exact ⟨a, by simp [OnRender, hb, ha]⟩

/-- The command list `PopulateCommandList` records on the rasterized path; nothing else
changes. -/
theorem PopulateCommandList_raster {M : Type} (env : Env M) (app : App M)
    (h : app.m_commandList.recording = false) (hr : app.m_raster = true) :
    PopulateCommandList env app = some { app with m_commandList := ⟨false,
      [Command.SetGraphicsRootSignature, Command.RSSetViewports, Command.RSSetScissorRects,
       Command.ResourceBarrier (Resource.m_renderTargets app.m_frameIndex)
         ResourceState.PRESENT ResourceState.RENDER_TARGET,
       Command.OMSetRenderTargets app.m_frameIndex,
       Command.SetDescriptorHeaps DescriptorHeap.m_constHeap,
       Command.SetGraphicsRootDescriptorTable DescriptorHeap.m_constHeap,
       Command.IASetPrimitiveTopology,
       Command.ClearRenderTargetView app.m_frameIndex,
       Command.IASetIndexBuffer BufferView.m_indexBufferView,
       Command.DrawIndexedInstanced 12,
       Command.IASetVertexBuffers BufferView.m_planeBufferView,
       Command.DrawInstanced 6,
       Command.IASetVertexBuffers BufferView.m_mengerVBView,
       Command.IASetIndexBuffer BufferView.m_mengerIBView,
       Command.DrawIndexedInstanced app.m_mengerIndexCount,
       Command.ResourceBarrier (Resource.m_renderTargets app.m_frameIndex)
         ResourceState.RENDER_TARGET ResourceState.PRESENT]⟩ } := by
  simp [PopulateCommandList, CommandList.Reset, CommandList.Close, App.record, h, hr]

/-- The state `PopulateCommandList` leaves on the ray-traced path: the effects of one
`CreateTopLevelAS` call, and the recorded command list. -/
theorem PopulateCommandList_raytrace {M : Type} (env : Env M) (app : App M)
    (h : app.m_commandList.recording = false) (hr : app.m_raster = false) :
    PopulateCommandList env app = some { app with
      m_topLevelASGenerator := CreateTopLevelAS.loop 0 app.m_instances app.m_topLevelASGenerator,
      m_topLevelASBuffers := ⟨some (Resource.buffer app.allocations.length),
        some (Resource.buffer (app.allocations.length + 1)),
        some (Resource.buffer (app.allocations.length + 2))⟩,
      allocations := (CreateTopLevelAS env app.m_instances app).allocations,
      cpuWrites := app.cpuWrites ++ [Resource.buffer (app.allocations.length + 2)],
      m_commandList := ⟨false,
      [Command.SetGraphicsRootSignature, Command.RSSetViewports, Command.RSSetScissorRects,
       Command.ResourceBarrier (Resource.m_renderTargets app.m_frameIndex)
         ResourceState.PRESENT ResourceState.RENDER_TARGET,
       Command.OMSetRenderTargets app.m_frameIndex,
       Command.BuildTopLevelAS
         (CreateTopLevelAS.loop 0 app.m_instances app.m_topLevelASGenerator).m_instances
         (some (Resource.buffer app.allocations.length))
         (some (Resource.buffer (app.allocations.length + 1)))
         (some (Resource.buffer (app.allocations.length + 2))),
       Command.SetDescriptorHeaps DescriptorHeap.m_srvUavHeap,
       Command.ResourceBarrier Resource.m_outputResource
         ResourceState.COPY_SOURCE ResourceState.UNORDERED_ACCESS,
       Command.SetPipelineState1,
       Command.DispatchRays (dispatchRaysDesc env app),
       Command.ResourceBarrier Resource.m_outputResource
         ResourceState.UNORDERED_ACCESS ResourceState.COPY_SOURCE,
       Command.ResourceBarrier (Resource.m_renderTargets app.m_frameIndex)
         ResourceState.RENDER_TARGET ResourceState.COPY_DEST,
       Command.CopyResource (Resource.m_renderTargets app.m_frameIndex) Resource.m_outputResource,
       Command.ResourceBarrier (Resource.m_renderTargets app.m_frameIndex)
         ResourceState.COPY_DEST ResourceState.RENDER_TARGET,
       Command.ResourceBarrier (Resource.m_renderTargets app.m_frameIndex)
         ResourceState.RENDER_TARGET ResourceState.PRESENT]⟩ } := by
  simp [PopulateCommandList, CommandList.Reset, CommandList.Close, App.record, h, hr,
    CreateTopLevelAS, App.CreateBuffer, App.write, CreateBuffer, dispatchRaysDesc]

/-- A frame writes no geometry buffer: `OnRender` keeps the camera buffer, the CPU writes at most
the fresh instance-descriptor buffer, and the commands it records write render targets, the output
image and fresh buffers only. -/
theorem OnRender_writes {M : Type} (env : Env M) (adv : Nat) (app a : App M)
    (h : OnRender env adv app = some a) :
    a.m_cameraBuffer = app.m_cameraBuffer ∧
      (∃ ws, a.cpuWrites = app.cpuWrites ++ ws ∧ ∀ x ∈ ws, x.isGeometry = false) ∧
      ∀ x ∈ commandWrites none a.m_commandList.commands, x.isGeometry = false := by
  simp only [OnRender, Option.bind_eq_bind, Option.bind_eq_some] at h
  obtain ⟨b, hb, hw⟩ := h
  have hrec := (PopulateCommandList_spec env app b hb).1
  obtain ⟨e, _⟩ := WaitForPreviousFrame_spec adv _ a hw
  cases hr : app.m_raster with
  | true =>
    rw [PopulateCommandList_raster env app hrec hr] at hb
    cases hb
    rw [e]
    refine ⟨rfl, ⟨[], by simp [App.Present, App.ExecuteCommandLists], by simp⟩, ?_⟩
    simp [App.Present, App.ExecuteCommandLists, commandWrites, Resource.isGeometry]
  | false =>
    rw [PopulateCommandList_raytrace env app hrec hr] at hb
    cases hb
    rw [e]
    refine ⟨rfl, ⟨[Resource.buffer (app.allocations.length + 2)],
      by simp [App.Present, App.ExecuteCommandLists], by simp [Resource.isGeometry]⟩, ?_⟩
    simp [App.Present, App.ExecuteCommandLists, commandWrites, Resource.isGeometry]

/-- With a closed command list and a camera buffer obtained from `CreateBuffer`, every run
returns, with the command list closed again and the same camera buffer; along the run the CPU
writes no geometry buffer, and neither do the commands of the last recorded frame. -/
theorem run_isSome {M : Type} (env : Env M) :
    ∀ (es : List Event) (app : App M), app.m_commandList.recording = false →
      (∃ k, app.m_cameraBuffer = some (Resource.buffer k)) →
      (∀ x ∈ commandWrites none app.m_commandList.commands, x.isGeometry = false) →
      ∃ a, run env es app = some a ∧ a.m_commandList.recording = false ∧
        a.m_cameraBuffer = app.m_cameraBuffer ∧
        (∃ ws, a.cpuWrites = app.cpuWrites ++ ws ∧ ∀ x ∈ ws, x.isGeometry = false) ∧
        ∀ x ∈ commandWrites none a.m_commandList.commands, x.isGeometry = false := by
  intro es
  induction es with
  | nil => intro app h _ hg; exact ⟨app, rfl, h, rfl, ⟨[], by simp, by simp⟩, hg⟩
  | cons e es ih =>
    intro app h hcam hg
    cases e with
    | render adv =>
      obtain ⟨b, hb⟩ := OnRender_isSome env adv app h
      obtain ⟨_, _, h3, _⟩ := OnRender_spec env adv app b hb
      obtain ⟨w1, ⟨ws, w2, w3⟩, w4⟩ := OnRender_writes env adv app b hb
      obtain ⟨a, ha, hc, hcam', ⟨ws', v2, v3⟩, v4⟩ := ih b h3 (by rw [w1]; exact hcam) w4
      refine ⟨a, by simp [run, Event.apply, hb, ha], hc, hcam'.trans w1, ⟨ws ++ ws', ?_, ?_⟩, v4⟩
      · rw [v2, w2, List.append_assoc]
      · intro x hx
        rcases List.mem_append.mp hx with hx | hx
        · exact w3 x hx
        · exact v3 x hx
    | keyUp key =>
      have e : ∀ app : App M, (OnKeyUp key app).m_commandList = app.m_commandList ∧
          (OnKeyUp key app).m_cameraBuffer = app.m_cameraBuffer ∧
          (OnKeyUp key app).cpuWrites = app.cpuWrites := by
        intro app
        unfold OnKeyUp
        split <;> simp
      obtain ⟨e1, e2, e3⟩ := e app
      obtain ⟨a, ha, hc, hcam', hw, v4⟩ := ih (OnKeyUp key app) (by rw [e1]; exact h)
        (by rw [e2]; exact hcam) (by rw [e1]; exact hg)
      exact ⟨a, by simp [run, Event.apply, ha], hc, hcam'.trans e2, by rw [← e3]; exact hw, v4⟩
    | gpuAdvance n =>
      obtain ⟨a, ha, hc, hcam', hw, v4⟩ := ih { app with gpu := app.gpu.advance n } h hcam hg
      exact ⟨a, by simp [run, Event.apply, ha], hc, hcam', hw, v4⟩
    | update =>
      obtain ⟨k, hk⟩ := hcam
      have hu : OnUpdate app = some (app.write (Resource.buffer k)) := by
        simp [OnUpdate, UpdateCameraBuffer, hk]
      obtain ⟨a, ha, hc, hcam', ⟨ws', v2, v3⟩, v4⟩ := ih (app.write (Resource.buffer k)) h
        ⟨k, hk⟩ hg
      refine ⟨a, by simp [run, Event.apply, hu, ha], hc, hcam', ⟨Resource.buffer k :: ws', ?_, ?_⟩, v4⟩
      · rw [v2]
        simp [App.write]
      · intro x hx
        rcases List.mem_cons.mp hx with hx | hx
        · rw [hx]; rfl
        · exact v3 x hx

/-- With at least one per-instance constant buffer, `CreateShaderBindingTable` returns. -/
theorem CreateShaderBindingTable_isSome {M : Type} (app : App M) (cb0 : Resource)
    (rest : List Resource) (h : app.m_perInstanceConstantBuffers = cb0 :: rest) :
    ∃ a, CreateShaderBindingTable app = some a := by
  simp [CreateShaderBindingTable, h]


/-! ## The claims -/

/-- C1 (the code departs from the claim at the plane, instance 1): on a device that passes the
ray-tracing check `OnInit` returns; the scene then has two instances and the plane has hit-group
offset 2, but the hit-group section holds only the three records HitGroup, ShadowHitGroup,
PlaneHitGroup.  The sponge's shadow record is at index 2*0+1; index 2*1+1 holds no record, and
the section has fewer than 2N records. -/
theorem C1_plane_has_no_shadow_record {M : Type} (env : Env M) (adv : Nat) (r : Bool) (vc ic : Nat)
    (h1 : env.checkFeatureSupportSucceeds = true) (h2 : 10 ≤ env.RaytracingTier) :
    ∃ a, OnInit env adv (App.initial r vc ic) = some a ∧
      a.m_instances.length = 2 ∧
      (a.m_topLevelASGenerator.m_instances[1]?).map Instance.hitGroupIndex = some 2 ∧
      a.m_sbtHelper.m_hitGroup.map SBTEntry.m_entryPoint =
        ["HitGroup", "ShadowHitGroup", "PlaneHitGroup"] ∧
      (a.m_sbtHelper.m_hitGroup[2 * 0 + 1]?).map SBTEntry.m_entryPoint = some "ShadowHitGroup" ∧
      a.m_sbtHelper.m_hitGroup[2 * 1 + 1]? = none ∧
      a.m_sbtHelper.m_hitGroup.length < 2 * a.m_instances.length := by
  obtain ⟨a, h⟩ := OnInit_isSome env adv r vc ic h1 h2
  obtain ⟨_, _, _, _, _, _, h7, h8, h9, _⟩ := OnInit_result env adv r vc ic a h
  refine ⟨a, h, ?_⟩
  rw [h7, h8, h9]
  simp

/-- Witness for C1: the concrete device passes the check, the initialisation returns, and the
plane's shadow record is missing there. -/
theorem C1_plane_has_no_shadow_record_witness :
    exampleEnv.checkFeatureSupportSucceeds = true ∧ 10 ≤ exampleEnv.RaytracingTier ∧
      ∃ a, OnInit exampleEnv 0 (App.initial false 100 200) = some a ∧
        a.m_instances.length = 2 ∧
        (a.m_topLevelASGenerator.m_instances[1]?).map Instance.hitGroupIndex = some 2 ∧
        a.m_sbtHelper.m_hitGroup.map SBTEntry.m_entryPoint =
          ["HitGroup", "ShadowHitGroup", "PlaneHitGroup"] ∧
        (a.m_sbtHelper.m_hitGroup[2 * 0 + 1]?).map SBTEntry.m_entryPoint = some "ShadowHitGroup" ∧
        a.m_sbtHelper.m_hitGroup[2 * 1 + 1]? = none ∧
        a.m_sbtHelper.m_hitGroup.length < 2 * a.m_instances.length :=
  ⟨rfl, Nat.le_refl 10,
    C1_plane_has_no_shadow_record exampleEnv 0 false 100 200 rfl (Nat.le_refl 10)⟩

/-- C2: on a device that passes the ray-tracing check `OnInit` returns, and the scene then has two
instances; instance `i` gets instance id `i` and hit-group offset `2 * i` from `CreateTopLevelAS`,
and the record at that index of the hit-group section is its primary hit group: HitGroup for
instance 0 (the Menger sponge, first in the instance list), PlaneHitGroup for instance 1 (the
plane).  Descriptor `i` is instance `i` of the scene, and its bottom-level structure is the one
the submitted command list builds from the Menger sponge's vertex buffer for `i = 0` and from the
plane's for `i = 1`. -/
theorem C2_primary_hit_group_at_offset {M : Type} (env : Env M) (adv : Nat) (r : Bool)
    (vc ic : Nat) (h1 : env.checkFeatureSupportSucceeds = true) (h2 : 10 ≤ env.RaytracingTier) :
    ∃ a, OnInit env adv (App.initial r vc ic) = some a ∧
      a.m_instances.length = 2 ∧ a.m_topLevelASGenerator.m_instances.length = 2 ∧
      ∀ (i : Nat) (d : Instance M), a.m_topLevelASGenerator.m_instances[i]? = some d →
        d.instanceID = i ∧ d.hitGroupIndex = 2 * i ∧
        (a.m_sbtHelper.m_hitGroup[d.hitGroupIndex]?).map SBTEntry.m_entryPoint =
          some (if i = 0 then "HitGroup" else "PlaneHitGroup") ∧
        a.m_instances[i]? = some (d.bottomLevelAS, d.transform) ∧
        (bottomLevelGeometries a.submitted.flatten d.bottomLevelAS).map
            (List.map Geometry.vertexBuffer) =
          some [if i = 0 then Resource.m_mengerVB else Resource.m_planeBuffer] := by
  obtain ⟨a, h⟩ := OnInit_isSome env adv r vc ic h1 h2
  obtain ⟨_, _, _, _, _, _, h7, h8, h9, _⟩ := OnInit_result env adv r vc ic a h
  obtain ⟨s0, s1⟩ := OnInit_scene env adv r vc ic a h
  refine ⟨a, h, ?_⟩
  rw [h7, h8, h9]
  refine ⟨rfl, rfl, ?_⟩
  intro i d hd
  match i, hd with
  | 0, hd => simp at hd; subst hd; simp [s0]
  | 1, hd => simp at hd; subst hd; simp [s1]
  | n + 2, hd => simp at hd

/-- Witness for C2: the concrete device passes the check, and the initialised application has the
primary hit groups in place. -/
theorem C2_primary_hit_group_at_offset_witness :
    exampleEnv.checkFeatureSupportSucceeds = true ∧ 10 ≤ exampleEnv.RaytracingTier ∧
      ∃ a, OnInit exampleEnv 0 (App.initial false 100 200) = some a ∧
        a.m_instances.length = 2 ∧ a.m_topLevelASGenerator.m_instances.length = 2 ∧
        ∀ (i : Nat) (d : Instance Unit), a.m_topLevelASGenerator.m_instances[i]? = some d →
          d.instanceID = i ∧ d.hitGroupIndex = 2 * i ∧
          (a.m_sbtHelper.m_hitGroup[d.hitGroupIndex]?).map SBTEntry.m_entryPoint =
            some (if i = 0 then "HitGroup" else "PlaneHitGroup") ∧
          a.m_instances[i]? = some (d.bottomLevelAS, d.transform) ∧
          (bottomLevelGeometries a.submitted.flatten d.bottomLevelAS).map
              (List.map Geometry.vertexBuffer) =
            some [if i = 0 then Resource.m_mengerVB else Resource.m_planeBuffer] :=
  ⟨rfl, Nat.le_refl 10,
    C2_primary_hit_group_at_offset exampleEnv 0 false 100 200 rfl (Nat.le_refl 10)⟩

/-- C3 as stated fails for lists longer than `2^31`: on a list of `2^31 + 1` entries, registered on
an empty generator, descriptor `2^31` gets hit-group offset `static_cast<UINT>(2^32) = 0`, not
`2 * 2^31`. -/
theorem C3_offset_wraps_counterexample :
    (App.initial false 0 0 : App Unit).m_topLevelASGenerator.m_instances = [] ∧
      (List.replicate (2 ^ 31 + 1) ((none : Option Resource), ())).length = 2 ^ 31 + 1 ∧
      ((CreateTopLevelAS exampleEnv (List.replicate (2 ^ 31 + 1) (none, ()))
          (App.initial false 0 0)).m_topLevelASGenerator.m_instances[2 ^ 31]?).map
        Instance.hitGroupIndex = some 0 ∧
      (0 : Nat) ≠ 2 * 2 ^ 31 := by
  refine ⟨rfl, List.length_replicate _ _, ?_, by norm_num⟩
  have hp : (List.replicate (2 ^ 31 + 1) ((none : Option Resource), ()))[2 ^ 31]? = some (none, ()) :=
    List.getElem?_replicate_of_lt (by norm_num)
  have := CreateTopLevelAS_getElem? exampleEnv _ (App.initial false 0 0) (2 ^ 31) _ hp
  simp only [App.initial, List.length_nil, Nat.zero_add] at this
  simp only [App.initial]
  rw [this]
  norm_num

/-- C3 (amended): on a generator that holds no instances, `CreateTopLevelAS` registers exactly
one descriptor per entry of the list, in list order; descriptor `i` carries the entry's
bottom-level structure and transform, instance id `i mod 2^32` and hit-group offset
`2*i mod 2^32`, which are `i` and `2*i` for every `i < 2^31`. -/
theorem C3_CreateTopLevelAS_registers {M : Type} (env : Env M)
    (instances : List (Option Resource × M)) (app : App M)
    (hempty : app.m_topLevelASGenerator.m_instances = []) :
    (CreateTopLevelAS env instances app).m_topLevelASGenerator.m_instances.length =
        instances.length ∧
      ∀ (i : Nat) (p : Option Resource × M), instances[i]? = some p →
        ∃ d, (CreateTopLevelAS env instances app).m_topLevelASGenerator.m_instances[i]? = some d ∧
          d.bottomLevelAS = p.1 ∧ d.transform = p.2 ∧
          d.instanceID = i % 2 ^ 32 ∧ d.hitGroupIndex = 2 * i % 2 ^ 32 ∧
          (i < 2 ^ 31 → d.instanceID = i ∧ d.hitGroupIndex = 2 * i) := by
  constructor
  · rw [CreateTopLevelAS_generator, hempty]
    simp
  · intro i p hp
    have := CreateTopLevelAS_getElem? env instances app i p hp
    rw [hempty, List.length_nil, Nat.zero_add] at this
    refine ⟨_, this, rfl, rfl, rfl, rfl, ?_⟩
    intro hi
    constructor
    · show i % 2 ^ 32 = i
      omega
    · show 2 * i % 2 ^ 32 = 2 * i
      omega

/-- Witness for C3: the scene's two instances registered on the empty generator of a fresh
application. -/
theorem C3_CreateTopLevelAS_registers_witness :
    exampleApp.m_topLevelASGenerator.m_instances = [] ∧
      (CreateTopLevelAS exampleEnv [(some (Resource.buffer 1), ()), (some (Resource.buffer 3), ())]
          exampleApp).m_topLevelASGenerator.m_instances.length =
        [(some (Resource.buffer 1), ()), (some (Resource.buffer 3), ())].length ∧
      ∀ (i : Nat) (p : Option Resource × Unit),
        [(some (Resource.buffer 1), ()), (some (Resource.buffer 3), ())][i]? = some p →
        ∃ d, (CreateTopLevelAS exampleEnv
            [(some (Resource.buffer 1), ()), (some (Resource.buffer 3), ())]
            exampleApp).m_topLevelASGenerator.m_instances[i]? = some d ∧
          d.bottomLevelAS = p.1 ∧ d.transform = p.2 ∧
          d.instanceID = i % 2 ^ 32 ∧ d.hitGroupIndex = 2 * i % 2 ^ 32 ∧
          (i < 2 ^ 31 → d.instanceID = i ∧ d.hitGroupIndex = 2 * i) :=
  ⟨rfl, C3_CreateTopLevelAS_registers exampleEnv _ exampleApp rfl⟩

/-- C4 (the code departs from the claim): `CreateTopLevelAS` never empties the member generator.
On a device that passes the ray-tracing check, `OnInit`, then `n` frames, then one more frame,
all on the ray-traced path, return (`n + 2` calls on a scene of `N = 2` instances); the generator
then holds `n + 2` copies of the scene's two descriptors, `2 * (n + 2)` in all; entry 2 has
hit-group offset 0, not 4; and the build recorded by that last frame is handed all of them. -/
theorem C4_generator_accumulates {M : Type} (env : Env M) (adv0 : Nat) (vc ic : Nat)
    (advs : List Nat) (adv : Nat)
    (h1 : env.checkFeatureSupportSucceeds = true) (h2 : 10 ≤ env.RaytracingTier) :
    ∃ app0 app1 app, OnInit env adv0 (App.initial false vc ic) = some app0 ∧
      run env (advs.map Event.render) app0 = some app1 ∧
      OnRender env adv app1 = some app ∧
      app.m_instances.length = 2 ∧
      app.m_topLevelASGenerator.m_instances =
        (List.replicate (advs.length + 2)
          [(⟨some (Resource.buffer 1), env.XMMatrixIdentity, 0, 0⟩ : Instance M),
           ⟨some (Resource.buffer 3), env.XMMatrixTranslation000, 1, 2⟩]).flatten ∧
      app.m_topLevelASGenerator.m_instances.length = 2 * (advs.length + 2) ∧
      (app.m_topLevelASGenerator.m_instances[2]?).map Instance.hitGroupIndex = some 0 ∧
      ∃ s r d, Command.BuildTopLevelAS app.m_topLevelASGenerator.m_instances s r d ∈
        app.m_commandList.commands := by
  obtain ⟨app0, h0⟩ := OnInit_isSome env adv0 false vc ic h1 h2
  obtain ⟨r1, _, _, _, _, r6, h7, h8, _, _⟩ := OnInit_result env adv0 false vc ic app0 h0
  obtain ⟨c1, _⟩ := OnInit_buffers env adv0 false vc ic app0 h0
  obtain ⟨app1, hrun, hclosed, _⟩ := run_isSome env (advs.map Event.render) app0 (by rw [r6])
    ⟨11, c1⟩ (by rw [r6]; simp [commandWrites])
  obtain ⟨app, h⟩ := OnRender_isSome env adv app1 hclosed
  refine ⟨app0, app1, app, h0, hrun, h, ?_⟩
  obtain ⟨k1, k2, k3⟩ := run_render_generator env advs app0 app1 r1 hrun
  obtain ⟨_, j2, _, _, _, _, _, j8⟩ := OnRender_spec env adv app1 app h
  rw [h7] at k2
  rw [h7, h8] at k3
  have e : app.m_topLevelASGenerator.m_instances =
      (List.replicate (advs.length + 2)
        [(⟨some (Resource.buffer 1), env.XMMatrixIdentity, 0, 0⟩ : Instance M),
         ⟨some (Resource.buffer 3), env.XMMatrixTranslation000, 1, 2⟩]).flatten := by
    have f : ∀ (n : Nat) (D : List (Instance M)),
        D ++ (List.replicate n D).flatten ++ D = (List.replicate (n + 2) D).flatten := by
      intro n D
      rw [List.replicate_succ, List.flatten_cons, List.replicate_succ', List.flatten_append]
      simp
    rw [j8, k3, k2, ← f]
    simp [k1]
  refine ⟨by rw [j2, k2]; rfl, e, ?_, ?_, OnRender_build env adv app1 app k1 h⟩
  · rw [e]
    simp [Nat.mul_comm]
  · rw [e]
    simp [List.replicate_succ]

/-- Witness for C4: on the concrete device, after the initialisation and one ray-traced frame the
generator holds four descriptors for a scene of two instances. -/
theorem C4_generator_accumulates_witness :
    exampleEnv.checkFeatureSupportSucceeds = true ∧ 10 ≤ exampleEnv.RaytracingTier ∧
      ∃ app0 app1 app, OnInit exampleEnv 0 (App.initial false 100 200) = some app0 ∧
        run exampleEnv (([] : List Nat).map Event.render) app0 = some app1 ∧
        OnRender exampleEnv 0 app1 = some app ∧
        app.m_instances.length = 2 ∧
        app.m_topLevelASGenerator.m_instances =
          (List.replicate (([] : List Nat).length + 2)
            [(⟨some (Resource.buffer 1), exampleEnv.XMMatrixIdentity, 0, 0⟩ : Instance Unit),
             ⟨some (Resource.buffer 3), exampleEnv.XMMatrixTranslation000, 1, 2⟩]).flatten ∧
        app.m_topLevelASGenerator.m_instances.length = 2 * (([] : List Nat).length + 2) ∧
        (app.m_topLevelASGenerator.m_instances[2]?).map Instance.hitGroupIndex = some 0 ∧
        ∃ s r d, Command.BuildTopLevelAS app.m_topLevelASGenerator.m_instances s r d ∈
          app.m_commandList.commands :=
  ⟨rfl, Nat.le_refl 10,
    C4_generator_accumulates exampleEnv 0 100 200 [] 0 rfl (Nat.le_refl 10)⟩

/-- C5 (the code departs from the claim): `CreateAccelerationStructure` increments `m_fenceValue`
and signals the new value 3 without stepping past it, so the `WaitForPreviousFrame` of the first
`OnRender` signals 3 again.  On a device that passes the ray-tracing check both calls return, and
the values passed to `Signal` up to there are 1, 3, 3: not strictly increasing. -/
theorem C5_fence_value_signalled_twice {M : Type} (env : Env M) (adv0 adv : Nat) (r : Bool)
    (vc ic : Nat) (h1 : env.checkFeatureSupportSucceeds = true) (h2 : 10 ≤ env.RaytracingTier) :
    ∃ app0 app, OnInit env adv0 (App.initial r vc ic) = some app0 ∧
      OnRender env adv app0 = some app ∧
      app.signalled = [1, 3, 3] ∧ ¬ app.signalled.Pairwise (fun x y => x < y) := by
  obtain ⟨app0, h0⟩ := OnInit_isSome env adv0 r vc ic h1 h2
  obtain ⟨_, s2, s3, _, _, s6, _⟩ := OnInit_result env adv0 r vc ic app0 h0
  obtain ⟨app, h⟩ := OnRender_isSome env adv app0 (by rw [s6])
  obtain ⟨_, _, _, j4, _⟩ := OnRender_spec env adv app0 app h
  have e : app.signalled = [1, 3, 3] := by rw [j4, s2, s3]; rfl
  refine ⟨app0, app, h0, h, e, ?_⟩
  rw [e]
  decide

/-- Witness for C5: on the concrete device the initialisation and the first frame return, and the
signal log is 1, 3, 3. -/
theorem C5_fence_value_signalled_twice_witness :
    exampleEnv.checkFeatureSupportSucceeds = true ∧ 10 ≤ exampleEnv.RaytracingTier ∧
      ∃ app0 app, OnInit exampleEnv 0 (App.initial false 100 200) = some app0 ∧
        OnRender exampleEnv 0 app0 = some app ∧
        app.signalled = [1, 3, 3] ∧ ¬ app.signalled.Pairwise (fun x y => x < y) :=
  ⟨rfl, Nat.le_refl 10,
    C5_fence_value_signalled_twice exampleEnv 0 0 false 100 200 rfl (Nat.le_refl 10)⟩

/-- C6 (the code departs from the claim): in the first `OnRender` after `OnInit` the value
`WaitForPreviousFrame` signals, 3, is one the fence has already reached, so the call does not wait.
If the GPU made no progress of its own meanwhile, `OnRender` returns with the frame's command list
(submission 2) still in the queue, not executed; and the `PopulateCommandList` of the next frame
then runs, resetting the allocator and rebuilding the top-level structure, while that command list
is still pending. -/
theorem C6_first_frame_not_awaited {M : Type} (env : Env M) (adv0 : Nat) (r : Bool)
    (vc ic : Nat) (h1 : env.checkFeatureSupportSucceeds = true) (h2 : 10 ≤ env.RaytracingTier) :
    ∃ app0 app, OnInit env adv0 (App.initial r vc ic) = some app0 ∧
      OnRender env 0 app0 = some app ∧ app.submissions = 2 ∧
      app.gpu.pending =
        [QueueItem.ExecuteCommandLists 2, QueueItem.Present, QueueItem.Signal 3] ∧
      2 ∉ app.gpu.finished ∧
      ∃ app', PopulateCommandList env app = some app' ∧
        QueueItem.ExecuteCommandLists 2 ∈ app'.gpu.pending := by
  obtain ⟨app0, h0⟩ := OnInit_isSome env adv0 r vc ic h1 h2
  obtain ⟨_, _, h3, h4, h5, h6, _⟩ := OnInit_result env adv0 r vc ic app0 h0
  have hrec : app0.m_commandList.recording = false := by rw [h6]
  obtain ⟨b, hb⟩ := PopulateCommandList_isSome env app0 hrec
  obtain ⟨_, b2, _, _, b5, _, b7, b8, _⟩ := PopulateCommandList_spec env app0 b hb
  have hw : OnRender env 0 app0 = some
      { (b.ExecuteCommandLists.Present env) with
          m_fenceValue := 4,
          signalled := b.signalled ++ [3],
          gpu := ⟨[QueueItem.ExecuteCommandLists 2, QueueItem.Present, QueueItem.Signal 3], 3, [1]⟩,
          m_frameIndex := (b.ExecuteCommandLists.Present env).backBufferIndex } := by
    simp [OnRender, hb, WaitForPreviousFrame, App.Present, App.ExecuteCommandLists, App.Signal,
      GPU.advance, b5, b7, b8, h3, h4, h5, toUINT64]
  refine ⟨app0, _, h0, hw, ?_, rfl, by simp, ?_⟩
  · simp [App.Present, App.ExecuteCommandLists, b8, h5]
  · have hrec' : ({ (b.ExecuteCommandLists.Present env) with
          m_fenceValue := 4,
          signalled := b.signalled ++ [3],
          gpu := ⟨[QueueItem.ExecuteCommandLists 2, QueueItem.Present, QueueItem.Signal 3], 3, [1]⟩,
          m_frameIndex := (b.ExecuteCommandLists.Present env).backBufferIndex } :
          App M).m_commandList.recording = false := by
      simpa [App.Present, App.ExecuteCommandLists] using b2
    obtain ⟨c, hc⟩ := PopulateCommandList_isSome env _ hrec'
    obtain ⟨_, _, _, _, c5, _⟩ := PopulateCommandList_spec env _ c hc
    exact ⟨c, hc, by rw [c5]; simp⟩

/-- Witness for C6: on the concrete device, after the initialisation, the first frame returns with
its command list still queued. -/
theorem C6_first_frame_not_awaited_witness :
    exampleEnv.checkFeatureSupportSucceeds = true ∧ 10 ≤ exampleEnv.RaytracingTier ∧
      ∃ app0 app, OnInit exampleEnv 0 (App.initial false 100 200) = some app0 ∧
        OnRender exampleEnv 0 app0 = some app ∧ app.submissions = 2 ∧
        app.gpu.pending =
          [QueueItem.ExecuteCommandLists 2, QueueItem.Present, QueueItem.Signal 3] ∧
        2 ∉ app.gpu.finished ∧
        ∃ app', PopulateCommandList exampleEnv app = some app' ∧
          QueueItem.ExecuteCommandLists 2 ∈ app'.gpu.pending :=
  ⟨rfl, Nat.le_refl 10,
    C6_first_frame_not_awaited exampleEnv 0 false 100 200 rfl (Nat.le_refl 10)⟩

/-- C7: `CreateShaderBindingTable` returns whenever there is a first per-instance constant buffer,
and for the table it declares the three section start offsets that `PopulateCommandList` adds to
the table address are 0, 64 and 128, each a multiple of the table alignment 64. -/
theorem C7_section_offsets_aligned {M : Type} (env : Env M) (app : App M) (cb0 : Resource)
    (rest : List Resource) (hcb : app.m_perInstanceConstantBuffers = cb0 :: rest) :
    ∃ a, CreateShaderBindingTable app = some a ∧
      sectionOffsets a.m_sbtHelper = (0, 64, 128) ∧
      (sectionOffsets a.m_sbtHelper).1 % ShaderBindingTableGenerator.tableAlignment = 0 ∧
      (sectionOffsets a.m_sbtHelper).2.1 % ShaderBindingTableGenerator.tableAlignment = 0 ∧
      (sectionOffsets a.m_sbtHelper).2.2 % ShaderBindingTableGenerator.tableAlignment = 0 ∧
      (dispatchRaysDesc env a).RayGenerationShaderRecord_StartAddress =
        env.gpuVirtualAddress a.m_sbtStorage + (sectionOffsets a.m_sbtHelper).1 ∧
      (dispatchRaysDesc env a).MissShaderTable_StartAddress =
        toUINT64 (env.gpuVirtualAddress a.m_sbtStorage + (sectionOffsets a.m_sbtHelper).2.1) ∧
      (dispatchRaysDesc env a).HitGroupTable_StartAddress =
        toUINT64 (env.gpuVirtualAddress a.m_sbtStorage + (sectionOffsets a.m_sbtHelper).2.2) := by
  obtain ⟨a, h⟩ := CreateShaderBindingTable_isSome app cb0 rest hcb
  obtain ⟨_, _, _, h4, h5, _, _⟩ := CreateShaderBindingTable_sizes app a h
  have e : sectionOffsets a.m_sbtHelper = (0, 64, 128) := by
    simp [sectionOffsets, h4, h5, toUINT]
  refine ⟨a, h, e, ?_, ?_, ?_, ?_, ?_, ?_⟩
  · rw [e]; rfl
  · rw [e]; rfl
  · rw [e]; rfl
  · rfl
  · rfl
  · show toUINT64 (toUINT64 (_ + toUINT _) + toUINT _) = toUINT64 (_ + (toUINT _ + toUINT _))
    simp only [toUINT64]
    omega

/-- Witness for C7: the table declared on the concrete initialised application, whose
per-instance constant buffers are buffers 7, 8 and 9. -/
theorem C7_section_offsets_aligned_witness :
    exampleInitialised.m_perInstanceConstantBuffers =
        Resource.buffer 7 :: [Resource.buffer 8, Resource.buffer 9] ∧
      ∃ a, CreateShaderBindingTable exampleInitialised = some a ∧
        sectionOffsets a.m_sbtHelper = (0, 64, 128) ∧
        (sectionOffsets a.m_sbtHelper).1 % ShaderBindingTableGenerator.tableAlignment = 0 ∧
        (sectionOffsets a.m_sbtHelper).2.1 % ShaderBindingTableGenerator.tableAlignment = 0 ∧
        (sectionOffsets a.m_sbtHelper).2.2 % ShaderBindingTableGenerator.tableAlignment = 0 ∧
        (dispatchRaysDesc exampleEnv a).RayGenerationShaderRecord_StartAddress =
          exampleEnv.gpuVirtualAddress a.m_sbtStorage + (sectionOffsets a.m_sbtHelper).1 ∧
        (dispatchRaysDesc exampleEnv a).MissShaderTable_StartAddress =
          toUINT64 (exampleEnv.gpuVirtualAddress a.m_sbtStorage +
            (sectionOffsets a.m_sbtHelper).2.1) ∧
        (dispatchRaysDesc exampleEnv a).HitGroupTable_StartAddress =
          toUINT64 (exampleEnv.gpuVirtualAddress a.m_sbtStorage +
            (sectionOffsets a.m_sbtHelper).2.2) :=
  ⟨rfl, C7_section_offsets_aligned exampleEnv exampleInitialised _ _ rfl⟩

/-- C8 as stated fails: a table with one ray-generation, one miss and one hit-group record, none
with arguments, has a ray-generation section of 32 bytes, so its miss section starts at offset 32,
which is not a multiple of the table alignment 64. -/
theorem C8_offset_not_table_aligned_counterexample :
    exampleBareTable.m_rayGen.length = 1 ∧ 1 ≤ exampleBareTable.m_miss.length ∧
      1 ≤ exampleBareTable.m_hitGroup.length ∧
      sectionOffsets exampleBareTable = (0, 32, 64) ∧
      (sectionOffsets exampleBareTable).2.1 % ShaderBindingTableGenerator.tableAlignment ≠ 0 := by
  decide

/-- C8 (amended): for every table declaration the section start offsets computed as in
`PopulateCommandList` are each a multiple of the record alignment 32. -/
theorem C8_section_offsets_record_aligned (t : ShaderBindingTableGenerator) :
    (sectionOffsets t).1 % ShaderBindingTableGenerator.recordAlignment = 0 ∧
      (sectionOffsets t).2.1 % ShaderBindingTableGenerator.recordAlignment = 0 ∧
      (sectionOffsets t).2.2 % ShaderBindingTableGenerator.recordAlignment = 0 := by
  have hr : t.GetRayGenSectionSize % 32 = 0 := by
    have := ShaderBindingTableGenerator.GetEntrySize_mod t.m_rayGen
    simp only [ShaderBindingTableGenerator.recordAlignment] at this
    simp [ShaderBindingTableGenerator.GetRayGenSectionSize,
      ShaderBindingTableGenerator.GetRayGenEntrySize, Nat.mul_mod, this]
  have hm : t.GetMissSectionSize % 32 = 0 := by
    have := ShaderBindingTableGenerator.GetEntrySize_mod t.m_miss
    simp only [ShaderBindingTableGenerator.recordAlignment] at this
    simp [ShaderBindingTableGenerator.GetMissSectionSize,
      ShaderBindingTableGenerator.GetMissEntrySize, Nat.mul_mod, this]
  refine ⟨rfl, ?_, ?_⟩
  · show toUINT t.GetRayGenSectionSize % 32 = 0
    simp only [toUINT]
    omega
  · show (toUINT t.GetRayGenSectionSize + toUINT t.GetMissSectionSize) % 32 = 0
    simp only [toUINT]
    omega

/-- C9: the stride of every section is the largest `32 + 8 * argument count` among the section's
records, rounded up to a multiple of 32, and these are the strides the dispatch description
carries (for the single ray-generation record, as its size, held in a `uint32_t`); for the table
of `CreateShaderBindingTable` they are 64, 32 and 64 bytes; a record without arguments has
size 32. -/
theorem C9_section_strides {M : Type} (env : Env M) (app' : App M)
    (hone : app'.m_sbtHelper.m_rayGen.length = 1) (app : App M) (cb0 : Resource)
    (rest : List Resource) (hcb : app.m_perInstanceConstantBuffers = cb0 :: rest)
    (e : SBTEntry) (he : e.m_inputData = []) :
    app'.m_sbtHelper.GetRayGenEntrySize = ShaderBindingTableGenerator.roundUp
        ((app'.m_sbtHelper.m_rayGen.map fun e => 32 + 8 * e.m_inputData.length).foldl max 0) 32 ∧
      (dispatchRaysDesc env app').RayGenerationShaderRecord_SizeInBytes =
        toUINT app'.m_sbtHelper.GetRayGenEntrySize ∧
      app'.m_sbtHelper.GetMissEntrySize = ShaderBindingTableGenerator.roundUp
        ((app'.m_sbtHelper.m_miss.map fun e => 32 + 8 * e.m_inputData.length).foldl max 0) 32 ∧
      (dispatchRaysDesc env app').MissShaderTable_StrideInBytes =
        app'.m_sbtHelper.GetMissEntrySize ∧
      app'.m_sbtHelper.GetHitGroupEntrySize = ShaderBindingTableGenerator.roundUp
        ((app'.m_sbtHelper.m_hitGroup.map fun e => 32 + 8 * e.m_inputData.length).foldl max 0) 32 ∧
      (dispatchRaysDesc env app').HitGroupTable_StrideInBytes =
        app'.m_sbtHelper.GetHitGroupEntrySize ∧
      ShaderBindingTableGenerator.recordSize e = 32 ∧
      ∃ a, CreateShaderBindingTable app = some a ∧
        (dispatchRaysDesc env a).RayGenerationShaderRecord_SizeInBytes = 64 ∧
        (dispatchRaysDesc env a).MissShaderTable_StrideInBytes = 32 ∧
        (dispatchRaysDesc env a).HitGroupTable_StrideInBytes = 64 := by
  have raw : ∀ l : List SBTEntry,
      (l.map fun e => ShaderBindingTableGenerator.progIdSize +
          e.m_inputData.length * ShaderBindingTableGenerator.argSize) =
        (l.map fun e => 32 + 8 * e.m_inputData.length) := by
    intro l
    apply List.map_congr_left
    intro x _
    simp only [ShaderBindingTableGenerator.progIdSize, ShaderBindingTableGenerator.argSize]
    omega
  have key : ∀ l : List SBTEntry, ShaderBindingTableGenerator.GetEntrySize l =
      ShaderBindingTableGenerator.roundUp
        ((l.map fun e => 32 + 8 * e.m_inputData.length).foldl max 0) 32 := by
    intro l
    rw [ShaderBindingTableGenerator.GetEntrySize_eq, raw]
    rfl
  obtain ⟨a, h⟩ := CreateShaderBindingTable_isSome app cb0 rest hcb
  obtain ⟨_, s2, s3, s4, _⟩ := CreateShaderBindingTable_sizes app a h
  refine ⟨key _, ?_, key _, rfl, key _, rfl, ?_, a, h, ?_, s2, s3⟩
  · simp [dispatchRaysDesc, ShaderBindingTableGenerator.GetRayGenSectionSize, hone]
  · simp [ShaderBindingTableGenerator.recordSize, he, ShaderBindingTableGenerator.roundUp,
      ShaderBindingTableGenerator.progIdSize, ShaderBindingTableGenerator.recordAlignment]
  · simp [dispatchRaysDesc, s4, toUINT]

/-- Witness for C9: the strides of the concrete initialised application and of the table declared
on it, and the size of the argument-free ShadowHitGroup record. -/
theorem C9_section_strides_witness :
    exampleInitialised.m_sbtHelper.m_rayGen.length = 1 ∧
      exampleInitialised.m_perInstanceConstantBuffers =
        Resource.buffer 7 :: [Resource.buffer 8, Resource.buffer 9] ∧
      (⟨"ShadowHitGroup", []⟩ : SBTEntry).m_inputData = [] ∧
      exampleInitialised.m_sbtHelper.GetRayGenEntrySize = ShaderBindingTableGenerator.roundUp
        ((exampleInitialised.m_sbtHelper.m_rayGen.map
          fun e => 32 + 8 * e.m_inputData.length).foldl max 0) 32 ∧
      (dispatchRaysDesc exampleEnv exampleInitialised).RayGenerationShaderRecord_SizeInBytes =
        toUINT exampleInitialised.m_sbtHelper.GetRayGenEntrySize ∧
      exampleInitialised.m_sbtHelper.GetMissEntrySize = ShaderBindingTableGenerator.roundUp
        ((exampleInitialised.m_sbtHelper.m_miss.map
          fun e => 32 + 8 * e.m_inputData.length).foldl max 0) 32 ∧
      (dispatchRaysDesc exampleEnv exampleInitialised).MissShaderTable_StrideInBytes =
        exampleInitialised.m_sbtHelper.GetMissEntrySize ∧
      exampleInitialised.m_sbtHelper.GetHitGroupEntrySize = ShaderBindingTableGenerator.roundUp
        ((exampleInitialised.m_sbtHelper.m_hitGroup.map
          fun e => 32 + 8 * e.m_inputData.length).foldl max 0) 32 ∧
      (dispatchRaysDesc exampleEnv exampleInitialised).HitGroupTable_StrideInBytes =
        exampleInitialised.m_sbtHelper.GetHitGroupEntrySize ∧
      ShaderBindingTableGenerator.recordSize ⟨"ShadowHitGroup", []⟩ = 32 ∧
      ∃ a, CreateShaderBindingTable exampleInitialised = some a ∧
        (dispatchRaysDesc exampleEnv a).RayGenerationShaderRecord_SizeInBytes = 64 ∧
        (dispatchRaysDesc exampleEnv a).MissShaderTable_StrideInBytes = 32 ∧
        (dispatchRaysDesc exampleEnv a).HitGroupTable_StrideInBytes = 64 :=
  ⟨rfl, rfl, rfl,
    C9_section_strides exampleEnv exampleInitialised rfl exampleInitialised _ _ rfl
      ⟨"ShadowHitGroup", []⟩ rfl⟩

/-- C10: `CreateShaderBindingTable` returns whenever there is a first per-instance constant
buffer; the buffer it allocates for the table has the size `ComputeSBTSize` returns, 320 bytes,
and that is exactly the sum of the three section sizes `PopulateCommandList` puts in the dispatch
description: 64 + 64 + 192. -/
theorem C10_table_size_is_sum_of_sections {M : Type} (env : Env M) (app : App M) (cb0 : Resource)
    (rest : List Resource) (hcb : app.m_perInstanceConstantBuffers = cb0 :: rest) :
    ∃ a, CreateShaderBindingTable app = some a ∧
      a.m_sbtStorage = some (Resource.buffer app.allocations.length) ∧
      a.allocations = app.allocations ++
        [⟨toUINT a.m_sbtHelper.ComputeSBTSize, ResourceFlag.NONE, ResourceState.GENERIC_READ,
          HeapProps.kUploadHeapProps⟩] ∧
      toUINT a.m_sbtHelper.ComputeSBTSize =
        (dispatchRaysDesc env a).RayGenerationShaderRecord_SizeInBytes +
          (dispatchRaysDesc env a).MissShaderTable_SizeInBytes +
          (dispatchRaysDesc env a).HitGroupTable_SizeInBytes ∧
      a.m_sbtHelper.ComputeSBTSize = 320 ∧
      (dispatchRaysDesc env a).RayGenerationShaderRecord_SizeInBytes = 64 ∧
      (dispatchRaysDesc env a).MissShaderTable_SizeInBytes = 64 ∧
      (dispatchRaysDesc env a).HitGroupTable_SizeInBytes = 192 := by
  obtain ⟨a, h⟩ := CreateShaderBindingTable_isSome app cb0 rest hcb
  obtain ⟨_, _, _, hal, hst⟩ := CreateShaderBindingTable_spec app a h
  obtain ⟨_, _, _, h4, h5, h6, h7⟩ := CreateShaderBindingTable_sizes app a h
  refine ⟨a, h, hst, hal, ?_, h7, ?_, ?_, ?_⟩ <;> simp [dispatchRaysDesc, h4, h5, h6, h7, toUINT]

/-- Witness for C10: the table buffer allocated on the concrete initialised application. -/
theorem C10_table_size_is_sum_of_sections_witness :
    exampleInitialised.m_perInstanceConstantBuffers =
        Resource.buffer 7 :: [Resource.buffer 8, Resource.buffer 9] ∧
      ∃ a, CreateShaderBindingTable exampleInitialised = some a ∧
        a.m_sbtStorage = some (Resource.buffer exampleInitialised.allocations.length) ∧
        a.allocations = exampleInitialised.allocations ++
          [⟨toUINT a.m_sbtHelper.ComputeSBTSize, ResourceFlag.NONE,
            ResourceState.GENERIC_READ, HeapProps.kUploadHeapProps⟩] ∧
        toUINT a.m_sbtHelper.ComputeSBTSize =
          (dispatchRaysDesc exampleEnv a).RayGenerationShaderRecord_SizeInBytes +
            (dispatchRaysDesc exampleEnv a).MissShaderTable_SizeInBytes +
            (dispatchRaysDesc exampleEnv a).HitGroupTable_SizeInBytes ∧
        a.m_sbtHelper.ComputeSBTSize = 320 ∧
        (dispatchRaysDesc exampleEnv a).RayGenerationShaderRecord_SizeInBytes = 64 ∧
        (dispatchRaysDesc exampleEnv a).MissShaderTable_SizeInBytes = 64 ∧
        (dispatchRaysDesc exampleEnv a).HitGroupTable_SizeInBytes = 192 :=
  ⟨rfl, C10_table_size_is_sum_of_sections exampleEnv exampleInitialised _ _ rfl⟩


/-! ## Lemmas on the bottom-level loop -/

/-- The geometry `CreateBottomLevelAS` registers for the vertex-buffer pair `vb` at index `i`. -/
theorem CreateBottomLevelAS.loop_eq (vI : List (Resource × Nat)) :
    ∀ (vV : List (Resource × Nat)) (i : Nat) (acc : List Geometry),
      CreateBottomLevelAS.loop vI i vV acc =
        acc ++ (vV.enumFrom i).map (fun p =>
          match vI[p.1]? with
          | some ib =>
            if ib.2 > 0 then Geometry.indexed p.2.1 p.2.2 ib.1 ib.2
            else Geometry.nonIndexed p.2.1 p.2.2
          | none => Geometry.nonIndexed p.2.1 p.2.2) := by
  intro vV
  induction vV with
  | nil => intro i acc; simp [CreateBottomLevelAS.loop]
  | cons vb rest ih =>
    intro i acc
    simp [CreateBottomLevelAS.loop, ih]

/-! ## The claims, continued -/

/-- C11: with a closed command list `PopulateCommandList` returns.  On the rasterized path the
recorded list holds no top-level build, and the top-level buffers, the generator and the
allocations are as before.  On the ray-traced path the list holds exactly one top-level build, and
the generator, the top-level buffers and the allocations are those left by one call
`CreateTopLevelAS(m_instances)`. -/
theorem C11_top_level_rebuild_per_path {M : Type} (env : Env M) (app : App M)
    (h : app.m_commandList.recording = false) :
    ∃ a, PopulateCommandList env app = some a ∧
      (app.m_raster = true →
        a.m_commandList.commands.countP Command.isBuildTopLevelAS = 0 ∧
        a.m_topLevelASBuffers = app.m_topLevelASBuffers ∧
        a.m_topLevelASGenerator = app.m_topLevelASGenerator ∧
        a.allocations = app.allocations) ∧
      (app.m_raster = false →
        a.m_commandList.commands.countP Command.isBuildTopLevelAS = 1 ∧
        a.m_topLevelASBuffers = (CreateTopLevelAS env app.m_instances app).m_topLevelASBuffers ∧
        a.m_topLevelASGenerator = (CreateTopLevelAS env app.m_instances app).m_topLevelASGenerator ∧
        a.allocations = (CreateTopLevelAS env app.m_instances app).allocations) := by
  cases hr : app.m_raster with
  | true =>
    refine ⟨_, PopulateCommandList_raster env app h hr, ?_, by simp⟩
    intro _
    simp [List.countP_cons, Command.isBuildTopLevelAS]
  | false =>
    refine ⟨_, PopulateCommandList_raytrace env app h hr, by simp, ?_⟩
    intro _
    simp [List.countP_cons, Command.isBuildTopLevelAS, CreateTopLevelAS, App.record,
      App.CreateBuffer, App.write, CreateBuffer]

/-- Witness for C11: the initialised application has a closed command list. -/
theorem C11_top_level_rebuild_per_path_witness :
    exampleInitialised.m_commandList.recording = false ∧
      ∃ a, PopulateCommandList exampleEnv exampleInitialised = some a ∧
        (exampleInitialised.m_raster = true →
          a.m_commandList.commands.countP Command.isBuildTopLevelAS = 0 ∧
          a.m_topLevelASBuffers = exampleInitialised.m_topLevelASBuffers ∧
          a.m_topLevelASGenerator = exampleInitialised.m_topLevelASGenerator ∧
          a.allocations = exampleInitialised.allocations) ∧
        (exampleInitialised.m_raster = false →
          a.m_commandList.commands.countP Command.isBuildTopLevelAS = 1 ∧
          a.m_topLevelASBuffers =
            (CreateTopLevelAS exampleEnv exampleInitialised.m_instances
              exampleInitialised).m_topLevelASBuffers ∧
          a.m_topLevelASGenerator =
            (CreateTopLevelAS exampleEnv exampleInitialised.m_instances
              exampleInitialised).m_topLevelASGenerator ∧
          a.allocations =
            (CreateTopLevelAS exampleEnv exampleInitialised.m_instances
              exampleInitialised).allocations) :=
  ⟨rfl, C11_top_level_rebuild_per_path exampleEnv exampleInitialised rfl⟩

/-- C12: `OnKeyUp(key)` negates `m_raster` when `key` is `VK_SPACE` and leaves it alone for every
other key, and changes no other field; two space key-ups in a row give back the state they started
from; and no other event (a rendered frame, an update, GPU progress) nor `OnDestroy` changes
`m_raster`. -/
theorem C12_render_path_toggle {M : Type} (env : Env M) (app : App M) (key : Nat)
    (e : Event) (a : App M) (hne : e ≠ Event.keyUp 0x20) (he : e.apply env app = some a) :
    OnKeyUp key app =
        { app with m_raster := if key = 0x20 then !app.m_raster else app.m_raster } ∧
      OnKeyUp 0x20 (OnKeyUp 0x20 app) = app ∧
      a.m_raster = app.m_raster ∧
      ∀ adv b, OnDestroy adv app = some b → b.m_raster = app.m_raster := by
  refine ⟨?_, ?_, ?_, ?_⟩
  · unfold OnKeyUp
    split <;> rfl
  · simp [OnKeyUp]
  · cases e with
    | render adv => exact (OnRender_spec env adv app a he).1
    | keyUp k =>
      have hk : k ≠ 0x20 := fun hk => hne (by rw [hk])
      simp only [Event.apply, Option.some.injEq] at he
      subst he
      simp [OnKeyUp, hk]
    | gpuAdvance n =>
      simp only [Event.apply, Option.some.injEq] at he
      subst he
      rfl
    | update =>
      simp only [Event.apply, OnUpdate, UpdateCameraBuffer] at he
      split at he
      · simp only [Option.some.injEq] at he
        subst he
        rfl
      · cases he
  · intro adv b hb
    obtain ⟨e, _⟩ := WaitForPreviousFrame_spec adv app b hb
    rw [e]

/-- Witness for C12: a rendered frame on the initialised application is an event other than a
space key-up, and it returns. -/
theorem C12_render_path_toggle_witness :
    Event.render 0 ≠ Event.keyUp 0x20 ∧
      (Event.render 0).apply exampleEnv exampleInitialised = some exampleFirstFrame ∧
      OnKeyUp 0x20 exampleInitialised =
        { exampleInitialised with
          m_raster := if 0x20 = 0x20 then !exampleInitialised.m_raster
                      else exampleInitialised.m_raster } ∧
      OnKeyUp 0x20 (OnKeyUp 0x20 exampleInitialised) = exampleInitialised ∧
      exampleFirstFrame.m_raster = exampleInitialised.m_raster ∧
      ∀ adv b, OnDestroy adv exampleInitialised = some b →
        b.m_raster = exampleInitialised.m_raster :=
  ⟨by decide, rfl,
    C12_render_path_toggle exampleEnv exampleInitialised 0x20 (Event.render 0) exampleFirstFrame
      (by decide) rfl⟩


/-- C13 as stated fails: called with an empty instance list while a frame is being recorded,
`CreateTopLevelAS` registers nothing but still allocates three buffers (13 allocations become 16)
and records a build command. -/
theorem C13_empty_list_still_builds_counterexample :
    (CreateTopLevelAS exampleEnv [] exampleRecording).m_topLevelASGenerator =
        exampleRecording.m_topLevelASGenerator ∧
      exampleRecording.allocations.length = 13 ∧
      (CreateTopLevelAS exampleEnv [] exampleRecording).allocations.length = 16 ∧
      exampleRecording.m_commandList.commands = [] ∧
      (CreateTopLevelAS exampleEnv [] exampleRecording).m_commandList.commands =
        [Command.BuildTopLevelAS exampleRecording.m_topLevelASGenerator.m_instances
          (some (Resource.buffer 13)) (some (Resource.buffer 14)) (some (Resource.buffer 15))] := by
  refine ⟨rfl, rfl, rfl, rfl, rfl⟩

/-- C13 (amended): for an empty instance list `CreateTopLevelAS` registers no instance (the
generator keeps what it holds), but it still allocates a scratch, a result and an
instance-descriptor buffer of the sizes the device reports for the generator's descriptor count,
keeps them in `m_topLevelASBuffers`, fills the instance-descriptor buffer, and records one build
command handed the generator's descriptors. -/
theorem C13_empty_list_registers_nothing {M : Type} (env : Env M) (app : App M) :
    (CreateTopLevelAS env [] app).m_topLevelASGenerator = app.m_topLevelASGenerator ∧
      (CreateTopLevelAS env [] app).allocations = app.allocations ++
        [⟨(env.sizes.topLevel app.m_topLevelASGenerator.m_instances.length).1,
            ResourceFlag.ALLOW_UNORDERED_ACCESS, ResourceState.UNORDERED_ACCESS,
            HeapProps.kDefaultHeapProps⟩,
         ⟨(env.sizes.topLevel app.m_topLevelASGenerator.m_instances.length).2.1,
            ResourceFlag.ALLOW_UNORDERED_ACCESS, ResourceState.RAYTRACING_ACCELERATION_STRUCTURE,
            HeapProps.kDefaultHeapProps⟩,
         ⟨(env.sizes.topLevel app.m_topLevelASGenerator.m_instances.length).2.2,
            ResourceFlag.NONE, ResourceState.GENERIC_READ, HeapProps.kUploadHeapProps⟩] ∧
      (CreateTopLevelAS env [] app).m_topLevelASBuffers =
        ⟨some (Resource.buffer app.allocations.length),
         some (Resource.buffer (app.allocations.length + 1)),
         some (Resource.buffer (app.allocations.length + 2))⟩ ∧
      (CreateTopLevelAS env [] app).cpuWrites =
        app.cpuWrites ++ [Resource.buffer (app.allocations.length + 2)] ∧
      (CreateTopLevelAS env [] app).m_commandList.commands = app.m_commandList.commands ++
        [Command.BuildTopLevelAS app.m_topLevelASGenerator.m_instances
          (some (Resource.buffer app.allocations.length))
          (some (Resource.buffer (app.allocations.length + 1)))
          (some (Resource.buffer (app.allocations.length + 2)))] := by
  simp [CreateTopLevelAS, CreateTopLevelAS.loop, App.record, App.CreateBuffer, App.write,
    CreateBuffer]

/-- C14: for all lists of vertex-buffer and index-buffer pairs, of any lengths, the empty ones
included, `CreateBottomLevelAS` registers exactly one geometry per vertex-buffer pair, in order,
and hands them to the build it records.  Geometry `i` is the indexed one, with index pair `i`,
when that pair exists and has a positive index count; it is the non-indexed one when there is no
index pair `i` or its count is 0.  The index pairs beyond the vertex list are not read: dropping
them gives the same geometries and the same result of the whole call. -/
theorem C14_one_geometry_per_vertex_buffer {M : Type} (env : Env M) (app : App M)
    (vVertexBuffers vIndexBuffers : List (Resource × Nat)) :
    (CreateBottomLevelAS.loop vIndexBuffers 0 vVertexBuffers []).length = vVertexBuffers.length ∧
      (∀ (i : Nat) (vb ib : Resource × Nat), vVertexBuffers[i]? = some vb →
        vIndexBuffers[i]? = some ib → 0 < ib.2 →
        (CreateBottomLevelAS.loop vIndexBuffers 0 vVertexBuffers [])[i]? =
          some (Geometry.indexed vb.1 vb.2 ib.1 ib.2)) ∧
      (∀ (i : Nat) (vb : Resource × Nat), vVertexBuffers[i]? = some vb →
        (∀ ib, vIndexBuffers[i]? = some ib → ib.2 = 0) →
        (CreateBottomLevelAS.loop vIndexBuffers 0 vVertexBuffers [])[i]? =
          some (Geometry.nonIndexed vb.1 vb.2)) ∧
      CreateBottomLevelAS.loop (vIndexBuffers.take vVertexBuffers.length) 0 vVertexBuffers [] =
        CreateBottomLevelAS.loop vIndexBuffers 0 vVertexBuffers [] ∧
      CreateBottomLevelAS env vVertexBuffers (vIndexBuffers.take vVertexBuffers.length) app =
        CreateBottomLevelAS env vVertexBuffers vIndexBuffers app ∧
      (CreateBottomLevelAS env vVertexBuffers vIndexBuffers app).2.m_commandList.commands =
        app.m_commandList.commands ++
          [Command.BuildBottomLevelAS (CreateBottomLevelAS.loop vIndexBuffers 0 vVertexBuffers [])
            (some (Resource.buffer app.allocations.length))
            (some (Resource.buffer (app.allocations.length + 1)))] := by
  have hget : ∀ (i : Nat) (vb : Resource × Nat), vVertexBuffers[i]? = some vb →
      (CreateBottomLevelAS.loop vIndexBuffers 0 vVertexBuffers [])[i]? =
      some (match vIndexBuffers[i]? with
        | some ib =>
          if ib.2 > 0 then Geometry.indexed vb.1 vb.2 ib.1 ib.2
          else Geometry.nonIndexed vb.1 vb.2
        | none => Geometry.nonIndexed vb.1 vb.2) := by
    intro i vb hvb
    rw [CreateBottomLevelAS.loop_eq]
    simp [List.getElem?_enumFrom, hvb]
  have htake :
      CreateBottomLevelAS.loop (vIndexBuffers.take vVertexBuffers.length) 0 vVertexBuffers [] =
        CreateBottomLevelAS.loop vIndexBuffers 0 vVertexBuffers [] := by
    rw [CreateBottomLevelAS.loop_eq, CreateBottomLevelAS.loop_eq]
    simp only [List.nil_append]
    apply List.map_congr_left
    intro p hp
    obtain ⟨j, hj⟩ := List.getElem?_of_mem hp
    have hlt : p.1 < vVertexBuffers.length := by
      rw [List.getElem?_enumFrom] at hj
      cases hv : vVertexBuffers[j]? with
      | none => simp [hv] at hj
      | some v =>
        simp [hv] at hj
        have := (List.getElem?_eq_some_iff.mp hv).1
        rw [← hj]
        simpa using this
    rw [List.getElem?_take_of_lt hlt]
  refine ⟨?_, ?_, ?_, htake, ?_, ?_⟩
  · rw [CreateBottomLevelAS.loop_eq]
    simp
  · intro i vb ib hvb hib hpos
    rw [hget i vb hvb, hib]
    simp [hpos]
  · intro i vb hvb hzero
    rw [hget i vb hvb]
    cases hib : vIndexBuffers[i]? with
    | none => rfl
    | some ib => simp [hzero ib hib]
  · simp only [CreateBottomLevelAS, htake]
  · simp [CreateBottomLevelAS, App.record, App.CreateBuffer, CreateBuffer]

/-- Witness for C14: no vertex-buffer pair and one index-buffer pair give no geometry, and the
index pair is not read; three vertex-buffer pairs with two index-buffer pairs, the second with
count 0, give an indexed geometry followed by two non-indexed ones. -/
theorem C14_one_geometry_per_vertex_buffer_witness :
    (CreateBottomLevelAS.loop [(Resource.m_mengerIB, 200)] 0 [] []).length = 0 ∧
      CreateBottomLevelAS exampleEnv [] ([(Resource.m_mengerIB, 200)].take 0) exampleRecording =
        CreateBottomLevelAS exampleEnv [] [(Resource.m_mengerIB, 200)] exampleRecording ∧
      (CreateBottomLevelAS.loop [(Resource.m_mengerIB, 200), (Resource.m_indexBuffer, 0)] 0
          [(Resource.m_mengerVB, 100), (Resource.m_planeBuffer, 6), (Resource.m_vertexBuffer, 4)]
          []).length = 3 ∧
      (CreateBottomLevelAS.loop [(Resource.m_mengerIB, 200), (Resource.m_indexBuffer, 0)] 0
          [(Resource.m_mengerVB, 100), (Resource.m_planeBuffer, 6), (Resource.m_vertexBuffer, 4)]
          [])[0]? = some (Geometry.indexed Resource.m_mengerVB 100 Resource.m_mengerIB 200) ∧
      (CreateBottomLevelAS.loop [(Resource.m_mengerIB, 200), (Resource.m_indexBuffer, 0)] 0
          [(Resource.m_mengerVB, 100), (Resource.m_planeBuffer, 6), (Resource.m_vertexBuffer, 4)]
          [])[1]? = some (Geometry.nonIndexed Resource.m_planeBuffer 6) ∧
      (CreateBottomLevelAS.loop [(Resource.m_mengerIB, 200), (Resource.m_indexBuffer, 0)] 0
          [(Resource.m_mengerVB, 100), (Resource.m_planeBuffer, 6), (Resource.m_vertexBuffer, 4)]
          [])[2]? = some (Geometry.nonIndexed Resource.m_vertexBuffer 4) :=
  have e := C14_one_geometry_per_vertex_buffer exampleEnv exampleRecording []
    [(Resource.m_mengerIB, 200)]
  have h := C14_one_geometry_per_vertex_buffer exampleEnv exampleRecording
    [(Resource.m_mengerVB, 100), (Resource.m_planeBuffer, 6), (Resource.m_vertexBuffer, 4)]
    [(Resource.m_mengerIB, 200), (Resource.m_indexBuffer, 0)]
  ⟨e.1, e.2.2.2.2.1, h.1,
    h.2.1 0 (Resource.m_mengerVB, 100) (Resource.m_mengerIB, 200) rfl rfl (by decide),
    h.2.2.1 1 (Resource.m_planeBuffer, 6) rfl (fun ib hib => by cases hib; rfl),
    h.2.2.1 2 (Resource.m_vertexBuffer, 4) rfl (fun ib hib => by cases hib)⟩

/-- C16: `CheckRaytracingSupport` throws exactly when the feature query fails or the reported tier
is below tier 1.0 (the value 10); otherwise it returns and the state is the one it was given. -/
theorem C16_CheckRaytracingSupport {M : Type} (env : Env M) (app : App M) :
    (CheckRaytracingSupport env app = none ↔
        (env.checkFeatureSupportSucceeds = false ∨ env.RaytracingTier < 10)) ∧
      CheckRaytracingSupport env app =
        (if env.checkFeatureSupportSucceeds = true ∧ 10 ≤ env.RaytracingTier then some app
         else none) := by
  unfold CheckRaytracingSupport
  cases hq : env.checkFeatureSupportSucceeds with
  | false => simp
  | true =>
    by_cases ht : env.RaytracingTier < 10
    · simp [ht, Nat.not_le.mpr ht]
    · simp [ht, Nat.le_of_not_lt ht]


/-- C15: on a device that passes the ray-tracing check, after `OnInit` every sequence of events
(frames rendered on either path, key releases that toggle the path or not, updates, GPU progress)
returns, and along it the CPU writes no geometry buffer: what it maps and writes are the camera
buffer and fresh instance-descriptor buffers.  After every prefix of the sequence the commands of
the frame recorded last write no geometry buffer either.  So the contents of the five geometry
buffers stay as uploaded. -/
theorem C15_geometry_buffers_not_written {M : Type} (env : Env M) (adv0 : Nat) (r : Bool)
    (vc ic : Nat) (es : List Event)
    (h1 : env.checkFeatureSupportSucceeds = true) (h2 : 10 ≤ env.RaytracingTier) :
    ∃ app0 app, OnInit env adv0 (App.initial r vc ic) = some app0 ∧
      run env es app0 = some app ∧
      (∃ ws, app.cpuWrites = app0.cpuWrites ++ ws ∧ ∀ x ∈ ws, x.isGeometry = false) ∧
      ∀ n, ∃ a, run env (es.take n) app0 = some a ∧
        ∀ x ∈ commandWrites none a.m_commandList.commands, x.isGeometry = false := by
  obtain ⟨app0, h0⟩ := OnInit_isSome env adv0 r vc ic h1 h2
  obtain ⟨_, _, _, _, _, r6, _⟩ := OnInit_result env adv0 r vc ic app0 h0
  obtain ⟨c1, _⟩ := OnInit_buffers env adv0 r vc ic app0 h0
  have hrec : app0.m_commandList.recording = false := by rw [r6]
  have hcmd : ∀ x ∈ commandWrites none app0.m_commandList.commands, x.isGeometry = false := by
    rw [r6]; simp [commandWrites]
  obtain ⟨app, hrun, _, _, hw, _⟩ := run_isSome env es app0 hrec ⟨11, c1⟩ hcmd
  refine ⟨app0, app, h0, hrun, hw, ?_⟩
  intro n
  obtain ⟨a, ha, _, _, _, hg⟩ := run_isSome env (es.take n) app0 hrec ⟨11, c1⟩ hcmd
  exact ⟨a, ha, hg⟩

/-- Witness for C15: on the concrete device, the path is toggled to Rasterize, two frames are
rendered with an update in between, the path is toggled back and a frame is rendered. -/
theorem C15_geometry_buffers_not_written_witness :
    exampleEnv.checkFeatureSupportSucceeds = true ∧ 10 ≤ exampleEnv.RaytracingTier ∧
      ∃ app0 app, OnInit exampleEnv 0 (App.initial false 100 200) = some app0 ∧
        run exampleEnv [Event.keyUp 0x20, Event.render 0, Event.update, Event.render 1,
          Event.keyUp 0x20, Event.render 0] app0 = some app ∧
        (∃ ws, app.cpuWrites = app0.cpuWrites ++ ws ∧ ∀ x ∈ ws, x.isGeometry = false) ∧
        ∀ n, ∃ a, run exampleEnv (List.take n [Event.keyUp 0x20, Event.render 0, Event.update,
            Event.render 1, Event.keyUp 0x20, Event.render 0]) app0 = some a ∧
          ∀ x ∈ commandWrites none a.m_commandList.commands, x.isGeometry = false :=
  ⟨rfl, Nat.le_refl 10,
    C15_geometry_buffers_not_written exampleEnv 0 false 100 200
      [Event.keyUp 0x20, Event.render 0, Event.update, Event.render 1, Event.keyUp 0x20,
        Event.render 0] rfl (Nat.le_refl 10)⟩

/-- C17: with a closed command list, on the ray-traced path `PopulateCommandList` returns and the
list it records holds exactly one top-level build (at position 5), exactly one `DispatchRays` (at
position 9) and exactly one `CopyResource` (at position 12).  The dispatch has the width and
height of the image `CreateRaytracingOutputBuffer` creates and depth 1; the copy is from the output
image into the render target of index `m_frameIndex`. -/
theorem C17_ray_traced_command_list {M : Type} (env : Env M) (app : App M)
    (h : app.m_commandList.recording = false) (hr : app.m_raster = false) :
    ∃ a, PopulateCommandList env app = some a ∧
      a.m_commandList.commands.countP Command.isBuildTopLevelAS = 1 ∧
      a.m_commandList.commands.countP Command.isDispatchRays = 1 ∧
      a.m_commandList.commands.countP Command.isCopyResource = 1 ∧
      a.m_commandList.commands[5]? = some (Command.BuildTopLevelAS
        a.m_topLevelASGenerator.m_instances a.m_topLevelASBuffers.pScratch
        a.m_topLevelASBuffers.pResult a.m_topLevelASBuffers.pInstanceDesc) ∧
      a.m_commandList.commands[9]? = some (Command.DispatchRays (dispatchRaysDesc env app)) ∧
      (dispatchRaysDesc env app).Width = (CreateRaytracingOutputBuffer env).Width ∧
      (dispatchRaysDesc env app).Height = (CreateRaytracingOutputBuffer env).Height ∧
      (dispatchRaysDesc env app).Depth = 1 ∧
      a.m_commandList.commands[12]? = some (Command.CopyResource
        (Resource.m_renderTargets app.m_frameIndex) Resource.m_outputResource) := by
  refine ⟨_, PopulateCommandList_raytrace env app h hr, ?_, ?_, ?_, ?_, ?_, rfl, rfl, rfl, ?_⟩ <;>
    simp [List.countP_cons, Command.isBuildTopLevelAS, Command.isDispatchRays,
      Command.isCopyResource]

/-- Witness for C17: the initialised application is on the ray-traced path with a closed command
list. -/
theorem C17_ray_traced_command_list_witness :
    exampleInitialised.m_commandList.recording = false ∧ exampleInitialised.m_raster = false ∧
      ∃ a, PopulateCommandList exampleEnv exampleInitialised = some a ∧
        a.m_commandList.commands.countP Command.isBuildTopLevelAS = 1 ∧
        a.m_commandList.commands.countP Command.isDispatchRays = 1 ∧
        a.m_commandList.commands.countP Command.isCopyResource = 1 ∧
        a.m_commandList.commands[5]? = some (Command.BuildTopLevelAS
          a.m_topLevelASGenerator.m_instances a.m_topLevelASBuffers.pScratch
          a.m_topLevelASBuffers.pResult a.m_topLevelASBuffers.pInstanceDesc) ∧
        a.m_commandList.commands[9]? =
          some (Command.DispatchRays (dispatchRaysDesc exampleEnv exampleInitialised)) ∧
        (dispatchRaysDesc exampleEnv exampleInitialised).Width =
          (CreateRaytracingOutputBuffer exampleEnv).Width ∧
        (dispatchRaysDesc exampleEnv exampleInitialised).Height =
          (CreateRaytracingOutputBuffer exampleEnv).Height ∧
        (dispatchRaysDesc exampleEnv exampleInitialised).Depth = 1 ∧
        a.m_commandList.commands[12]? = some (Command.CopyResource
          (Resource.m_renderTargets exampleInitialised.m_frameIndex) Resource.m_outputResource) :=
  ⟨rfl, rfl, C17_ray_traced_command_list exampleEnv exampleInitialised rfl rfl⟩

/-- C18: for every instance list and every generator, the descriptor `CreateTopLevelAS` registers
for entry `i` (after the descriptors the generator already holds) carries the bottom-level
structure reference and the transform of entry `i`; reading the references and transforms of the
newly registered descriptors back gives the list that was supplied. -/
theorem C18_instance_data_round_trip {M : Type} (env : Env M)
    (instances : List (Option Resource × M)) (app : App M) (i : Nat) (p : Option Resource × M)
    (hp : instances[i]? = some p) :
    (∃ d, (CreateTopLevelAS env instances app).m_topLevelASGenerator.m_instances[
          app.m_topLevelASGenerator.m_instances.length + i]? = some d ∧
        d.bottomLevelAS = p.1 ∧ d.transform = p.2) ∧
      (((CreateTopLevelAS env instances app).m_topLevelASGenerator.m_instances.drop
          app.m_topLevelASGenerator.m_instances.length).map
        fun d => (d.bottomLevelAS, d.transform)) = instances := by
  constructor
  · exact ⟨_, CreateTopLevelAS_getElem? env instances app i p hp, rfl, rfl⟩
  · rw [CreateTopLevelAS_generator, List.drop_left, List.map_map]
    have : ∀ (l : List (Option Resource × M)) (n : Nat),
        List.map ((fun d : Instance M => (d.bottomLevelAS, d.transform)) ∘
          fun p : Nat × Option Resource × M =>
            (⟨p.2.1, p.2.2, p.1 % 2 ^ 32, 2 * p.1 % 2 ^ 32⟩ : Instance M)) (l.enumFrom n) = l := by
      intro l
      induction l with
      | nil => intro n; rfl
      | cons x xs ih =>
        intro n
        rw [List.enumFrom, List.map_cons, ih]
        rfl
    exact this instances 0

/-- Witness for C18: the plane, entry 1 of a two-instance list, registered on the generator of
the initialised application. -/
theorem C18_instance_data_round_trip_witness :
    [(some (Resource.buffer 1), ()), (some (Resource.buffer 3), ())][1]? =
        some (some (Resource.buffer 3), ()) ∧
      (∃ d, (CreateTopLevelAS exampleEnv
            [(some (Resource.buffer 1), ()), (some (Resource.buffer 3), ())]
            exampleInitialised).m_topLevelASGenerator.m_instances[
              exampleInitialised.m_topLevelASGenerator.m_instances.length + 1]? = some d ∧
          d.bottomLevelAS = (some (Resource.buffer 3), ()).1 ∧
          d.transform = (some (Resource.buffer 3), ()).2) ∧
      (((CreateTopLevelAS exampleEnv
            [(some (Resource.buffer 1), ()), (some (Resource.buffer 3), ())]
            exampleInitialised).m_topLevelASGenerator.m_instances.drop
          exampleInitialised.m_topLevelASGenerator.m_instances.length).map
        fun d => (d.bottomLevelAS, d.transform)) =
          [(some (Resource.buffer 1), ()), (some (Resource.buffer 3), ())] :=
  ⟨rfl, C18_instance_data_round_trip exampleEnv _ exampleInitialised 1 _ rfl⟩


/-- C19 as stated fails at the largest `UINT64` value: with `m_fenceValue = 2^64 - 1` the call
signals `2^64 - 1` and leaves `m_fenceValue` at 0, not at `2^64`. -/
theorem C19_fence_value_wraps_counterexample :
    exampleFenceAtMax.m_fenceValue = 2 ^ 64 - 1 ∧
      (WaitForPreviousFrame 0 exampleFenceAtMax).map App.m_fenceValue = some 0 ∧
      (WaitForPreviousFrame 0 exampleFenceAtMax).map App.signalled = some [1, 3, 2 ^ 64 - 1] ∧
      (0 : Nat) ≠ (2 ^ 64 - 1) + 1 := by
  refine ⟨rfl, ?_, ?_, by norm_num⟩
  · obtain ⟨a, ha⟩ := WaitForPreviousFrame_isSome 0 exampleFenceAtMax
    obtain ⟨e, _⟩ := WaitForPreviousFrame_spec 0 exampleFenceAtMax a ha
    rw [ha, Option.map_some', e]
    rfl
  · obtain ⟨a, ha⟩ := WaitForPreviousFrame_isSome 0 exampleFenceAtMax
    obtain ⟨e, _⟩ := WaitForPreviousFrame_spec 0 exampleFenceAtMax a ha
    rw [ha, Option.map_some', e]
    rfl

/-- C19 (amended): for every value `v` of `m_fenceValue`, `WaitForPreviousFrame` returns; it
enqueues a signal of exactly `v` and leaves `m_fenceValue` at `(v + 1) mod 2^64`, which is `v + 1`
unless `v` is the largest `UINT64` value; with `g0` the queue after the signal was added and the
GPU made its progress, it waits for `v` when the fence value of `g0` is below `v` and does not
touch the queue otherwise; on return the fence has reached `v` and `m_frameIndex` is the swap
chain's current back-buffer index; a second call signals `(v + 1) mod 2^64`. -/
theorem C19_WaitForPreviousFrame {M : Type} (adv : Nat) (app : App M) :
    ∃ a, WaitForPreviousFrame adv app = some a ∧
      a.signalled = app.signalled ++ [app.m_fenceValue] ∧
      a.m_fenceValue = (app.m_fenceValue + 1) % 2 ^ 64 ∧
      (app.m_fenceValue + 1 < 2 ^ 64 → a.m_fenceValue = app.m_fenceValue + 1) ∧
      ((GPU.advance adv { app.gpu with
            pending := app.gpu.pending ++ [QueueItem.Signal app.m_fenceValue] }).completedValue <
          app.m_fenceValue →
        (GPU.advance adv { app.gpu with
            pending := app.gpu.pending ++ [QueueItem.Signal app.m_fenceValue] }).wait
          app.m_fenceValue = some a.gpu) ∧
      (¬ (GPU.advance adv { app.gpu with
            pending := app.gpu.pending ++ [QueueItem.Signal app.m_fenceValue] }).completedValue <
          app.m_fenceValue →
        a.gpu = GPU.advance adv { app.gpu with
            pending := app.gpu.pending ++ [QueueItem.Signal app.m_fenceValue] }) ∧
      app.m_fenceValue ≤ a.gpu.completedValue ∧
      a.m_frameIndex = app.backBufferIndex ∧
      ∀ adv', ∃ a', WaitForPreviousFrame adv' a = some a' ∧
        a'.signalled = app.signalled ++ [app.m_fenceValue, (app.m_fenceValue + 1) % 2 ^ 64] := by
  obtain ⟨a, ha⟩ := WaitForPreviousFrame_isSome adv app
  obtain ⟨e, hreach⟩ := WaitForPreviousFrame_spec adv app a ha
  have hs : a.signalled = app.signalled ++ [app.m_fenceValue] := by rw [e]
  have hf : a.m_fenceValue = (app.m_fenceValue + 1) % 2 ^ 64 := by rw [e]; rfl
  refine ⟨a, ha, hs, hf, ?_, ?_, ?_, hreach, by rw [e], ?_⟩
  · intro hlt
    rw [hf]
    exact Nat.mod_eq_of_lt hlt
  · intro hlt
    simp only [WaitForPreviousFrame, App.Signal, Option.bind_eq_bind] at ha
    rw [if_pos hlt] at ha
    simp only [Option.map_eq_map, Option.bind_eq_some, Option.map_eq_some',
      Option.some.injEq] at ha
    obtain ⟨b, ⟨g, hg, hb⟩, hab⟩ := ha
    subst hb
    subst hab
    exact hg
  · intro hlt
    simp only [WaitForPreviousFrame, App.Signal, Option.bind_eq_bind] at ha
    rw [if_neg hlt] at ha
    simp only [Option.some_bind, Option.some.injEq] at ha
    subst ha
    rfl
  · intro adv'
    obtain ⟨a', ha'⟩ := WaitForPreviousFrame_isSome adv' a
    obtain ⟨e', _⟩ := WaitForPreviousFrame_spec adv' a a' ha'
    refine ⟨a', ha', ?_⟩
    rw [e']
    simp [hs, hf]

/-- Witness for C19: on the initialised application, whose `m_fenceValue` is 3, the call returns,
signals 3 and leaves `m_fenceValue` at 4. -/
theorem C19_WaitForPreviousFrame_witness :
    exampleInitialised.m_fenceValue + 1 < 2 ^ 64 ∧
      ∃ a, WaitForPreviousFrame 0 exampleInitialised = some a ∧
        a.signalled = exampleInitialised.signalled ++ [exampleInitialised.m_fenceValue] ∧
        a.m_fenceValue = exampleInitialised.m_fenceValue + 1 :=
  have hv : exampleInitialised.m_fenceValue + 1 < 2 ^ 64 := by decide
  match C19_WaitForPreviousFrame 0 exampleInitialised with
  | ⟨a, h1, h2, _, h4, _⟩ => ⟨hv, a, h1, h2, h4 hv⟩

/-- C20 (the code departs from the claim at the tetrahedron): with a closed command list, on the
rasterized path `PopulateCommandList` returns, and the list it records never binds the
tetrahedron's vertex buffer view: the 12-index draw is issued with the tetrahedron's index buffer
bound and with whatever vertex buffer `b0` was bound before the list, none after a reset.  The
plane draw has the plane's vertex buffer bound, the Menger sponge draw the sponge's vertex and
index buffers. -/
theorem C20_tetrahedron_vertex_buffer_not_bound {M : Type} (env : Env M) (app : App M)
    (b0 : IABindings) (h : app.m_commandList.recording = false) (hr : app.m_raster = true) :
    ∃ a, PopulateCommandList env app = some a ∧
      Command.IASetVertexBuffers BufferView.m_vertexBufferView ∉ a.m_commandList.commands ∧
      drawBindings b0 a.m_commandList.commands =
        [(Command.DrawIndexedInstanced 12,
            ⟨b0.vertexBuffer, some BufferView.m_indexBufferView⟩),
         (Command.DrawInstanced 6,
            ⟨some BufferView.m_planeBufferView, some BufferView.m_indexBufferView⟩),
         (Command.DrawIndexedInstanced app.m_mengerIndexCount,
            ⟨some BufferView.m_mengerVBView, some BufferView.m_mengerIBView⟩)] ∧
      (drawBindings ⟨none, none⟩ a.m_commandList.commands)[0]? =
        some (Command.DrawIndexedInstanced 12, ⟨none, some BufferView.m_indexBufferView⟩) := by
  refine ⟨_, PopulateCommandList_raster env app h hr, ?_, ?_, ?_⟩
  · simp
  · simp [drawBindings, IABindings.step]
  · simp [drawBindings, IABindings.step]

/-- Witness for C20: the initialised application after a space key-up is on the rasterized path
with a closed command list. -/
theorem C20_tetrahedron_vertex_buffer_not_bound_witness :
    (OnKeyUp 0x20 exampleInitialised).m_commandList.recording = false ∧
      (OnKeyUp 0x20 exampleInitialised).m_raster = true ∧
      ∃ a, PopulateCommandList exampleEnv (OnKeyUp 0x20 exampleInitialised) = some a ∧
        Command.IASetVertexBuffers BufferView.m_vertexBufferView ∉ a.m_commandList.commands ∧
        drawBindings ⟨none, none⟩ a.m_commandList.commands =
          [(Command.DrawIndexedInstanced 12,
              ⟨(⟨none, none⟩ : IABindings).vertexBuffer, some BufferView.m_indexBufferView⟩),
           (Command.DrawInstanced 6,
              ⟨some BufferView.m_planeBufferView, some BufferView.m_indexBufferView⟩),
           (Command.DrawIndexedInstanced (OnKeyUp 0x20 exampleInitialised).m_mengerIndexCount,
              ⟨some BufferView.m_mengerVBView, some BufferView.m_mengerIBView⟩)] ∧
        (drawBindings ⟨none, none⟩ a.m_commandList.commands)[0]? =
          some (Command.DrawIndexedInstanced 12, ⟨none, some BufferView.m_indexBufferView⟩) :=
  ⟨rfl, rfl,
    C20_tetrahedron_vertex_buffer_not_bound exampleEnv (OnKeyUp 0x20 exampleInitialised)
      ⟨none, none⟩ rfl rfl⟩

/-! ## Lemmas on the command-list discipline and the resource states -/

/-- After `OnInit` no call on the command list was made in the wrong state, and the one list
submitted so far changes no resource state. -/
theorem OnInit_discipline {M : Type} (env : Env M) (adv : Nat) (r : Bool) (vc ic : Nat) (a : App M)
    (h : OnInit env adv (App.initial r vc ic) = some a) :
    a.listMisuse = 0 ∧
      ∃ l, a.submitted = [l] ∧ ∀ st : ResourceStates, execStates st l = some st := by
  simp only [OnInit, LoadAssets_initial, Option.some_bind, Option.bind_eq_bind] at h
  by_cases h1 : env.checkFeatureSupportSucceeds = false
  · simp [CheckRaytracingSupport, h1] at h
  by_cases h2 : env.RaytracingTier < 10
  · simp [CheckRaytracingSupport, h1, h2] at h
  simp [CheckRaytracingSupport, h1, h2] at h
  simp [GPU.wait, CreateAccelerationStructure, CreateBottomLevelAS, CreateTopLevelAS,
      CreateTopLevelAS.loop, CreateBottomLevelAS.loop, TopLevelASGenerator.AddInstance,
      App.record, App.CreateBuffer, App.write, CreateBuffer, App.ExecuteCommandLists, App.Signal,
      CommandList.Close, CommandList.Reset, App.initial,
      GPU.waitLoop, GPU.step, toUINT64, toUINT,
      CreatePerInstanceConstantBuffers, CreateGlobalConstantBuffer, CreateCameraBuffer,
      CreateShaderBindingTable, ShaderBindingTableGenerator.Reset,
      ShaderBindingTableGenerator.AddRayGenerationProgram, ShaderBindingTableGenerator.AddMissProgram,
      ShaderBindingTableGenerator.AddHitGroup] at h
  subst h
  exact ⟨rfl, _, rfl, fun st => by simp [execStates, Command.execStates]⟩

/-- The command list of a rasterized frame takes the resources from rest to rest. -/
theorem frameSafe_raster {M : Type} (f ic : Nat) :
    frameSafe ([Command.SetGraphicsRootSignature, Command.RSSetViewports, Command.RSSetScissorRects,
       Command.ResourceBarrier (Resource.m_renderTargets f)
         ResourceState.PRESENT ResourceState.RENDER_TARGET,
       Command.OMSetRenderTargets f,
       Command.SetDescriptorHeaps DescriptorHeap.m_constHeap,
       Command.SetGraphicsRootDescriptorTable DescriptorHeap.m_constHeap,
       Command.IASetPrimitiveTopology,
       Command.ClearRenderTargetView f,
       Command.IASetIndexBuffer BufferView.m_indexBufferView,
       Command.DrawIndexedInstanced 12,
       Command.IASetVertexBuffers BufferView.m_planeBufferView,
       Command.DrawInstanced 6,
       Command.IASetVertexBuffers BufferView.m_mengerVBView,
       Command.IASetIndexBuffer BufferView.m_mengerIBView,
       Command.DrawIndexedInstanced ic,
       Command.ResourceBarrier (Resource.m_renderTargets f)
         ResourceState.RENDER_TARGET ResourceState.PRESENT] : List (Command M)) := by
  intro st hst
  obtain ⟨hrt, hout⟩ := hst
  simp only [execStates, Command.execStates, Option.some_bind, Option.bind_eq_bind, hrt,
    ResourceStates.set, if_true]
  refine ⟨_, rfl, ?_, ?_⟩
  · intro n
    by_cases hn : n = f <;> simp [ResourceStates.set, hn, hrt]
  · simp [ResourceStates.set, hout]

/-- The command list of a ray-traced frame takes the resources from rest to rest. -/
theorem frameSafe_raytrace {M : Type} (f : Nat) (is : List (Instance M))
    (s r i : Option Resource) (d : DispatchRaysDesc) :
    frameSafe [Command.SetGraphicsRootSignature, Command.RSSetViewports, Command.RSSetScissorRects,
       Command.ResourceBarrier (Resource.m_renderTargets f)
         ResourceState.PRESENT ResourceState.RENDER_TARGET,
       Command.OMSetRenderTargets f,
       Command.BuildTopLevelAS is s r i,
       Command.SetDescriptorHeaps DescriptorHeap.m_srvUavHeap,
       Command.ResourceBarrier Resource.m_outputResource
         ResourceState.COPY_SOURCE ResourceState.UNORDERED_ACCESS,
       Command.SetPipelineState1,
       Command.DispatchRays d,
       Command.ResourceBarrier Resource.m_outputResource
         ResourceState.UNORDERED_ACCESS ResourceState.COPY_SOURCE,
       Command.ResourceBarrier (Resource.m_renderTargets f)
         ResourceState.RENDER_TARGET ResourceState.COPY_DEST,
       Command.CopyResource (Resource.m_renderTargets f) Resource.m_outputResource,
       Command.ResourceBarrier (Resource.m_renderTargets f)
         ResourceState.COPY_DEST ResourceState.RENDER_TARGET,
       Command.ResourceBarrier (Resource.m_renderTargets f)
         ResourceState.RENDER_TARGET ResourceState.PRESENT] := by
  intro st hst
  obtain ⟨hrt, hout⟩ := hst
  simp only [execStates, Command.execStates, Option.some_bind, Option.bind_eq_bind, hrt, hout,
    ResourceStates.set, if_true, reduceCtorEq, if_false, and_self]
  refine ⟨_, rfl, ?_, ?_⟩
  · intro n
    by_cases hn : n = f <;> simp [ResourceStates.set, hn, hrt]
  · simp [ResourceStates.set]


/-- With a closed command list `OnRender` returns with the list closed again; no call on the list
was made in the wrong state, the camera buffer is kept, and the one list it submits takes the
resources from rest to rest. -/
theorem OnRender_discipline {M : Type} (env : Env M) (adv : Nat) (app : App M)
    (h : app.m_commandList.recording = false) :
    ∃ a, OnRender env adv app = some a ∧ a.m_commandList.recording = false ∧
      a.listMisuse = app.listMisuse ∧ a.m_cameraBuffer = app.m_cameraBuffer ∧
      ∃ l, a.submitted = app.submitted ++ [l] ∧ frameSafe l := by
  obtain ⟨a, ha⟩ := OnRender_isSome env adv app h
  refine ⟨a, ha, ?_⟩
  simp only [OnRender, Option.bind_eq_bind, Option.bind_eq_some] at ha
  obtain ⟨b, hb, hw⟩ := ha
  obtain ⟨e, _⟩ := WaitForPreviousFrame_spec adv _ a hw
  cases hr : app.m_raster with
  | true =>
    rw [PopulateCommandList_raster env app h hr] at hb
    cases hb
    rw [e]
    refine ⟨rfl, by simp [App.Present, App.ExecuteCommandLists], rfl, _, ?_,
      frameSafe_raster app.m_frameIndex app.m_mengerIndexCount⟩
    simp [App.Present, App.ExecuteCommandLists]
  | false =>
    rw [PopulateCommandList_raytrace env app h hr] at hb
    cases hb
    rw [e]
    refine ⟨rfl, by simp [App.Present, App.ExecuteCommandLists], rfl, _, ?_,
      frameSafe_raytrace app.m_frameIndex
        (CreateTopLevelAS.loop 0 app.m_instances app.m_topLevelASGenerator).m_instances
        (some (Resource.buffer app.allocations.length))
        (some (Resource.buffer (app.allocations.length + 1)))
        (some (Resource.buffer (app.allocations.length + 2))) (dispatchRaysDesc env app)⟩
    simp [App.Present, App.ExecuteCommandLists]

/-- Command lists that each take the resources from rest to rest can be executed one after the
other, and leave them at rest. -/
theorem execLists_atRest {M : Type} :
    ∀ (ls : List (List (Command M))) (st : ResourceStates), (∀ l ∈ ls, frameSafe l) → st.atRest →
      ∃ st', execLists st ls = some st' ∧ st'.atRest := by
  intro ls
  induction ls with
  | nil => intro st _ hst; exact ⟨st, rfl, hst⟩
  | cons l ls ih =>
    intro st hl hst
    obtain ⟨st1, h1, hst1⟩ := hl l (List.mem_cons_self _ _) st hst
    obtain ⟨st2, h2, hst2⟩ := ih st1 (fun x hx => hl x (List.mem_cons_of_mem _ hx)) hst1
    exact ⟨st2, by simp [execLists, h1, h2], hst2⟩

/-- A transition barrier that names another state than the one its resource is in cannot be
executed. -/
theorem Command.execStates_wrong_before {M : Type} (st : ResourceStates) (r : Resource)
    (before after : ResourceState) (h : st r ≠ before) :
    (Command.ResourceBarrier r before after : Command M).execStates st = none := by
  simp [Command.execStates, h]

/-- With a closed command list and a camera buffer obtained from `CreateBuffer`, every run
returns with the list closed; along the run no call on the list is made in the wrong state, and
the run submits one command list per rendered frame, each taking the resources from rest to
rest. -/
theorem run_discipline {M : Type} (env : Env M) :
    ∀ (es : List Event) (app : App M), app.m_commandList.recording = false →
      (∃ k, app.m_cameraBuffer = some (Resource.buffer k)) →
      ∃ a, run env es app = some a ∧ a.m_commandList.recording = false ∧
        a.listMisuse = app.listMisuse ∧
        ∃ ls, a.submitted = app.submitted ++ ls ∧ ls.length = es.countP Event.isRender ∧
          ∀ l ∈ ls, frameSafe l := by
  intro es
  induction es with
  | nil => intro app h _; exact ⟨app, rfl, h, rfl, [], by simp, rfl, by simp⟩
  | cons e es ih =>
    intro app h hcam
    cases e with
    | render adv =>
      obtain ⟨b, hb, b1, b2, b3, l, b4, b5⟩ := OnRender_discipline env adv app h
      obtain ⟨a, ha, a1, a2, ls, a3, a4, a5⟩ := ih b b1 (by rw [b3]; exact hcam)
      refine ⟨a, by simp [run, Event.apply, hb, ha], a1, a2.trans b2, l :: ls, ?_, ?_, ?_⟩
      · rw [a3, b4, List.append_assoc]; rfl
      · simp [List.countP_cons, Event.isRender, a4]
      · intro x hx
        rcases List.mem_cons.mp hx with hx | hx
        · rw [hx]; exact b5
        · exact a5 x hx
    | keyUp key =>
      have e : ∀ app : App M, (OnKeyUp key app).m_commandList = app.m_commandList ∧
          (OnKeyUp key app).m_cameraBuffer = app.m_cameraBuffer ∧
          (OnKeyUp key app).listMisuse = app.listMisuse ∧
          (OnKeyUp key app).submitted = app.submitted := by
        intro app
        unfold OnKeyUp
        split <;> simp
      obtain ⟨e1, e2, e3, e4⟩ := e app
      obtain ⟨a, ha, a1, a2, ls, a3, a4, a5⟩ := ih (OnKeyUp key app) (by rw [e1]; exact h)
        (by rw [e2]; exact hcam)
      exact ⟨a, by simp [run, Event.apply, ha], a1, a2.trans e3, ls, by rw [a3, e4],
        by simp [List.countP_cons, Event.isRender, a4], a5⟩
    | gpuAdvance n =>
      obtain ⟨a, ha, a1, a2, ls, a3, a4, a5⟩ := ih { app with gpu := app.gpu.advance n } h hcam
      exact ⟨a, by simp [run, Event.apply, ha], a1, a2, ls, a3,
        by simp [List.countP_cons, Event.isRender, a4], a5⟩
    | update =>
      obtain ⟨k, hk⟩ := hcam
      have hu : OnUpdate app = some (app.write (Resource.buffer k)) := by
        simp [OnUpdate, UpdateCameraBuffer, hk]
      obtain ⟨a, ha, a1, a2, ls, a3, a4, a5⟩ := ih (app.write (Resource.buffer k)) h ⟨k, hk⟩
      exact ⟨a, by simp [run, Event.apply, hu, ha], a1, a2, ls, a3,
        by simp [List.countP_cons, Event.isRender, a4], a5⟩

/-- A command recorded into a closed list is counted as a misuse of the list. -/
theorem App.record_closed {M : Type} (app : App M) (c : Command M)
    (h : app.m_commandList.recording = false) :
    (app.record c).listMisuse = app.listMisuse + 1 := by
  simp [App.record, h]

/-- A list submitted while it is still recording is counted as a misuse of the list. -/
theorem App.ExecuteCommandLists_recording {M : Type} (app : App M)
    (h : app.m_commandList.recording = true) :
    (app.ExecuteCommandLists).listMisuse = app.listMisuse + 1 := by
  simp [App.ExecuteCommandLists, h]

/-! ## The claims, concluded -/

/-- C21 (the code departs from the claim at the three hit-group records): with at least one
per-instance constant buffer `CreateShaderBindingTable` returns, and the records it declares
are, with the number of root arguments written into each and the number of root parameters of
the root signature `CreateRaytracingPipeline` associates with it: RayGen 1 and 1, Miss 0 and 0,
ShadowMiss 0 and 0, HitGroup 3 against 4, ShadowHitGroup 0 against 4, PlaneHitGroup 2 against 4.
The counts agree for the ray-generation and miss records only. -/
theorem C21_hit_group_records_lack_arguments {M : Type} (app : App M) (cb0 : Resource)
    (rest : List Resource) (h : app.m_perInstanceConstantBuffers = cb0 :: rest) :
    ∃ a, CreateShaderBindingTable app = some a ∧
      a.m_sbtHelper.recordArguments.map (fun x => (x.1, x.2, rootParameterCount x.1)) =
        [("RayGen", 1, some 1), ("Miss", 0, some 0), ("ShadowMiss", 0, some 0),
         ("HitGroup", 3, some 4), ("ShadowHitGroup", 0, some 4), ("PlaneHitGroup", 2, some 4)] := by
  obtain ⟨a, ha⟩ := CreateShaderBindingTable_isSome app cb0 rest h
  obtain ⟨c, _, ht, _⟩ := CreateShaderBindingTable_spec app a ha
  refine ⟨a, ha, ?_⟩
  rw [ht]
  simp [ShaderBindingTableGenerator.recordArguments, rootParameterCount,
    RayTracingPipelineGenerator.signatureOf, CreateRaytracingPipeline,
    RayTracingPipelineGenerator.AddRootSignatureAssociation, RayTracingPipelineGenerator.AddLibrary,
    RayTracingPipelineGenerator.AddHitGroup, CreateRayGenSignature, CreateMissSignature,
    CreateHitSignature, RootSignatureGenerator.Generate, RootSignatureGenerator.AddRootParameter,
    RootSignatureGenerator.AddHeapRangesParameter, List.find?]

/-- Witness for C21: the initialised application has a per-instance constant buffer, and the
table declared for it has the argument counts above. -/
theorem C21_hit_group_records_lack_arguments_witness :
    exampleInitialised.m_perInstanceConstantBuffers =
        [Resource.buffer 7, Resource.buffer 8, Resource.buffer 9] ∧
      ∃ a, CreateShaderBindingTable exampleInitialised = some a ∧
        a.m_sbtHelper.recordArguments.map (fun x => (x.1, x.2, rootParameterCount x.1)) =
          [("RayGen", 1, some 1), ("Miss", 0, some 0), ("ShadowMiss", 0, some 0),
           ("HitGroup", 3, some 4), ("ShadowHitGroup", 0, some 4), ("PlaneHitGroup", 2, some 4)] :=
  ⟨rfl, C21_hit_group_records_lack_arguments exampleInitialised (Resource.buffer 7)
    [Resource.buffer 8, Resource.buffer 9] rfl⟩

/-- C22: on a device that passes the ray-tracing check `OnInit` returns with the command list
closed, and after it every sequence of rendered frames (with key releases, updates and GPU
progress in between) returns with the list closed at every point of the sequence.  Every checked
`Reset` and `Close` succeeded, which they do only on a closed and on a recording list, and
`listMisuse` is still 0: no command was recorded into a closed list, no list was submitted
while recording, and the unchecked `Close` of `CreateAccelerationStructure` found the list
recording. -/
theorem C22_command_list_discipline {M : Type} (env : Env M) (adv : Nat) (r : Bool) (vc ic : Nat)
    (es : List Event)
    (h1 : env.checkFeatureSupportSucceeds = true) (h2 : 10 ≤ env.RaytracingTier) :
    ∃ app0, OnInit env adv (App.initial r vc ic) = some app0 ∧
      app0.m_commandList.recording = false ∧ app0.listMisuse = 0 ∧
      ∀ n, ∃ a, run env (es.take n) app0 = some a ∧
        a.m_commandList.recording = false ∧ a.listMisuse = 0 := by
  obtain ⟨app0, h⟩ := OnInit_isSome env adv r vc ic h1 h2
  obtain ⟨_, _, _, _, _, r6, _⟩ := OnInit_result env adv r vc ic app0 h
  obtain ⟨c1, _⟩ := OnInit_buffers env adv r vc ic app0 h
  obtain ⟨d1, _⟩ := OnInit_discipline env adv r vc ic app0 h
  have hrec : app0.m_commandList.recording = false := by rw [r6]
  refine ⟨app0, h, hrec, d1, ?_⟩
  intro n
  obtain ⟨a, ha, a1, a2, _⟩ := run_discipline env (es.take n) app0 hrec ⟨11, c1⟩
  exact ⟨a, ha, a1, a2.trans d1⟩

/-- Witness for C22: the concrete device passes the check; initialisation, two ray-traced frames,
a switch to the rasterized path and a rasterized frame keep the discipline. -/
theorem C22_command_list_discipline_witness :
    exampleEnv.checkFeatureSupportSucceeds = true ∧ 10 ≤ exampleEnv.RaytracingTier ∧
      ∃ app0, OnInit exampleEnv 0 (App.initial false 100 200) = some app0 ∧
        app0.m_commandList.recording = false ∧ app0.listMisuse = 0 ∧
        ∀ n, ∃ a,
          run exampleEnv ([Event.render 0, Event.render 1, Event.keyUp 0x20, Event.update,
            Event.render 0].take n) app0 = some a ∧
          a.m_commandList.recording = false ∧ a.listMisuse = 0 :=
  ⟨rfl, Nat.le_refl 10,
    C22_command_list_discipline exampleEnv 0 false 100 200
      [Event.render 0, Event.render 1, Event.keyUp 0x20, Event.update, Event.render 0]
      rfl (Nat.le_refl 10)⟩

/-- C23: on a device that passes the ray-tracing check, after `OnInit` every sequence of rendered
frames, key releases (path toggles), updates and GPU progress returns, having submitted one
command list per rendered frame after the one of `OnInit`.  Starting from any states with every
back buffer in `PRESENT` and the output image in `COPY_SOURCE`, the submitted lists execute in
order without a command finding a resource in the wrong state: every transition barrier names
as `before` the state its resource is in, `DispatchRays` finds the output image in
`UNORDERED_ACCESS`, `CopyResource` finds the output image in `COPY_SOURCE` and the back buffer
in `COPY_DEST`; and after each list every back buffer is in `PRESENT` and the output image in
`COPY_SOURCE` again. -/
theorem C23_resource_states {M : Type} (env : Env M) (adv : Nat) (r : Bool) (vc ic : Nat)
    (es : List Event) (st : ResourceStates)
    (h1 : env.checkFeatureSupportSucceeds = true) (h2 : 10 ≤ env.RaytracingTier)
    (hst : st.atRest) :
    ∃ app0 a, OnInit env adv (App.initial r vc ic) = some app0 ∧ run env es app0 = some a ∧
      a.submitted.length = 1 + es.countP Event.isRender ∧
      ∀ k, ∃ st', execLists st (a.submitted.take k) = some st' ∧ st'.atRest := by
  obtain ⟨app0, h⟩ := OnInit_isSome env adv r vc ic h1 h2
  obtain ⟨_, _, _, _, _, r6, _⟩ := OnInit_result env adv r vc ic app0 h
  obtain ⟨c1, _⟩ := OnInit_buffers env adv r vc ic app0 h
  obtain ⟨_, l0, d2, d3⟩ := OnInit_discipline env adv r vc ic app0 h
  have hrec : app0.m_commandList.recording = false := by rw [r6]
  obtain ⟨a, ha, _, _, ls, a3, a4, a5⟩ := run_discipline env es app0 hrec ⟨11, c1⟩
  have hall : ∀ l ∈ a.submitted, frameSafe l := by
    intro l hl
    rw [a3, d2] at hl
    rcases List.mem_append.mp hl with hl | hl
    · rw [List.mem_singleton.mp hl]
      intro s hs
      exact ⟨s, d3 s, hs⟩
    · exact a5 l hl
  refine ⟨app0, a, h, ha, ?_, ?_⟩
  · rw [a3, d2, List.length_append, a4]
    rfl
  · intro k
    exact execLists_atRest (a.submitted.take k) st
      (fun l hl => hall l (List.mem_of_mem_take hl)) hst

/-- Witness for C23: the concrete device passes the check and the states before the first frame
are at rest; a ray-traced frame, a switch to the rasterized path, a rasterized frame, a switch
back and another ray-traced frame leave the resources at rest after every list. -/
theorem C23_resource_states_witness :
    exampleEnv.checkFeatureSupportSucceeds = true ∧ 10 ≤ exampleEnv.RaytracingTier ∧
      (initialStates exampleEnv).atRest ∧
      ∃ app0 a, OnInit exampleEnv 0 (App.initial false 100 200) = some app0 ∧
        run exampleEnv [Event.render 0, Event.keyUp 0x20, Event.render 1, Event.keyUp 0x20,
          Event.render 0] app0 = some a ∧
        a.submitted.length = 1 + [Event.render 0, Event.keyUp 0x20, Event.render 1,
          Event.keyUp 0x20, Event.render 0].countP Event.isRender ∧
        ∀ k, ∃ st', execLists (initialStates exampleEnv) (a.submitted.take k) = some st' ∧
          st'.atRest :=
  ⟨rfl, Nat.le_refl 10, ⟨fun _ => rfl, rfl⟩,
    C23_resource_states exampleEnv 0 false 100 200
      [Event.render 0, Event.keyUp 0x20, Event.render 1, Event.keyUp 0x20, Event.render 0]
      (initialStates exampleEnv) rfl (Nat.le_refl 10) ⟨fun _ => rfl, rfl⟩⟩

end D3D12HelloTriangle
